import Mathlib

/-!
Shallow embedding of tinynurbs OBJ curve/surface I/O (`tinynurbs/io/obj.h`).

This file embeds the four internal codec functions of `obj.h`
(`internal::curveReadOBJ`, `internal::surfaceReadOBJ`,
`internal::curveSaveOBJ`, `internal::surfaceSaveOBJ`) and their public
wrappers, and proves properties of the embedded code.

Modelling conventions:

* A file is a list of lines; a line is a list of whitespace-separated
  tokens (`Tok`).  A `Tok.num q` models a token whose text is a decimal
  numeral denoting the rational `q` (the tokens `operator>>`/`std::stof`
  parse successfully); `Tok.str s` models any other token.  A physically
  empty line (`sline.size() == 0` in the C++) is modelled as `[]`.
  Lines consisting solely of whitespace — which the C++ treats through a
  stale-token quirk of `operator>>` — are outside the model; no claim
  concerns them.
* Scalars (`T` = float/double in the C++) are modelled as `ℚ`, exact.
  The serializer is modelled as emitting the numeric values themselves;
  the spec's round-trip property is stated "up to the serializer's
  printing precision", i.e. on the printed values, which is what the
  exact model captures.
* `std::vector` subscripting carries no bounds check in C++; an
  out-of-range access is undefined behaviour.  It is modelled by
  `cppVecGet`/`cppVecGetN`, which return `default` out of range, so that
  "the code reads out of range and still returns normally" is
  expressible.
* `int num_cp = num_knots - deg - 1;` mixes `int` and `unsigned int`
  (`deg` is unsigned), so the subtraction is performed modulo 2^32 and
  the unsigned result is then converted back to `int`.  This is modelled
  exactly by `cppNumCp` (`wrap32` followed by the two's-complement
  reinterpretation `toSigned32`, which is implementation-defined until
  C++20 and wrapping on all mainstream targets).  The `unsigned int`
  extraction `ssline >> deg` is modelled by `cppReadUInt` (exact below
  2^32; a negative field of magnitude below 2^32 wraps modulo 2^32
  without failbit; a field of magnitude 2^32 or more clamps to
  `UINT_MAX` with failbit — C++11 `num_get`).  The `int num_knots =
  temp_knots.size();` conversion itself is modelled exactly: it is
  faithful for every file whose per-axis knot count stays below 2^31
  (a 2-gigabyte-scale object otherwise), the one remaining size
  idealization of the embedding.  `resize` on a negative count converts
  it to a huge `size_t` and `std::vector::resize` / allocation then
  throws; this is modelled as `ReadErr.lengthError`.
* Exceptions (`std::runtime_error`, `std::invalid_argument` from
  `std::stof`, `std::length_error` from `resize`) are modelled with
  `Except ReadErr`.
-/

/-- A whitespace-separated token of an OBJ file line. -/
inductive Tok where
  | str : String → Tok
  | num : ℚ → Tok
deriving DecidableEq, Repr

/-- A physical line of the file, as its token list. -/
abbrev Line := List Tok

/-- The line-continuation marker token (a single backslash). -/
def bsTok : Tok := Tok.str "\\"

/-- Errors of the read paths.  `missing*` model the four
`std::runtime_error`s of the required-record check, `stofError` the
`std::invalid_argument` thrown by `std::stof` on a non-numeric token,
`lengthError` the exception raised by `resize` on a negative
(= huge `size_t`) element count. -/
inductive ReadErr where
  | missingCstype
  | missingDeg
  | missingCurv
  | missingSurf
  | missingParm
  | stofError (tok : String)
  | lengthError
deriving DecidableEq, Repr

/-- The message carried by each modelled exception, as in the source. -/
def ReadErr.message : ReadErr → String
  | .missingCstype => "'cstype bspline / cstype rat bspline' line missing in file"
  | .missingDeg => "'deg' line missing/incomplete in file"
  | .missingCurv => "'curv' line missing/incomplete in file"
  | .missingSurf => "'surf' line missing/incomplete in file"
  | .missingParm => "'parm' line missing/incomplete in file"
  | .stofError t => "stof: no conversion: " ++ t
  | .lengthError => "vector::resize length_error"

/-- C++ `float` → `int` conversion used in `indices.push_back(std::stof(token))`:
truncation toward zero. -/
def cppTruncToInt (q : ℚ) : Int :=
  if 0 ≤ q.num then ((q.num.toNat / q.den : Nat) : Int)
  else - (((- q.num).toNat / q.den : Nat) : Int)

/-- One `operator>>` extraction into an `unsigned int` (`ssline >> deg`):
the stored value together with whether failbit was raised (C++11
`num_get` stage 3, conversion as by `strtoull` with the sign applied by
negation in the unsigned type).  A field denoting an integer in
`[0, 2^32)` is stored exactly and the stream stays good; a negative
field of magnitude below 2^32 stores its value modulo 2^32, also
without failbit; a field of magnitude 2^32 or more stores the most
positive representable value (`UINT_MAX = 4294967295`) and raises
failbit.  For a fractional numeral the integer part is taken, matching
the digits stage 2 accumulates. -/
def cppReadUInt (q : ℚ) : Nat × Bool :=
  let t := cppTruncToInt q
  if 0 ≤ t ∧ t < 4294967296 then (t.toNat, false)
  else if -4294967296 < t ∧ t < 0 then ((t % 4294967296).toNat, false)
  else (4294967295, true)

/-- Reduce an integer to C++ `unsigned int` arithmetic: the value
modulo 2^32, in `[0, 2^32)`. -/
def wrap32 (n : Int) : Nat := (n % 4294967296).toNat

/-- Convert an `unsigned int` value back to `int`, as the assignment
`int num_cp = <unsigned expression>;` does: two's-complement
reinterpretation (implementation-defined until C++20, and this wrapping
behaviour on all mainstream targets; defined since C++20). -/
def toSigned32 (n : Nat) : Int :=
  if n < 2147483648 then (n : Int) else (n : Int) - 4294967296

/-- `int num_cp = num_knots - deg - 1;` (obj.h lines 148, 303–304):
`deg` is `unsigned int`, so `num_knots` converts to unsigned, the
subtraction wraps modulo 2^32, and the unsigned result converts back
to `int`. -/
def cppNumCp (num_knots : Int) (deg : Nat) : Int :=
  toSigned32 (wrap32 (num_knots - deg - 1))

/-- `std::vector::operator[]` with an `int`/`ptrdiff_t` subscript: no bounds
check in C++; out-of-range access is undefined behaviour, modelled as
`default`. -/
def cppVecGet {α : Type} [Inhabited α] (xs : List α) (i : Int) : α :=
  if 0 ≤ i then xs.getD i.toNat default else default

/-- `std::vector::operator[]` with a `size_t` subscript: no bounds check in
C++; out-of-range access is undefined behaviour, modelled as `default`. -/
def cppVecGetN {α : Type} [Inhabited α] (xs : List α) (i : Nat) : α :=
  xs.getD i default

/-- The token-consuming loop shared by the `curv`/`surf`/`parm` handlers
(obj.h lines 98–107, 113–122, 240–249, 255–264, 267–276):

    while (ssline >> token) {
        if (token == "\\") { ssline.clear(); getline(file, sline); ssline.str(sline); }
        else               { values.push_back(std::stof(token)); }
    }

Consumes the remaining tokens of the current line; on the continuation
marker it abandons the rest of the current line and continues on the next
physical line pulled from the file.  Returns the parsed values and the
lines left unconsumed.  When the marker is the last token and the file is
exhausted, `getline` fails leaving an empty buffer, so the loop ends (and
the enclosing scan will also see end-of-file). -/
def parseVals : List Tok → List Line → Except ReadErr (List ℚ × List Line)
  | [], rest => .ok ([], rest)
  | t :: ts, rest =>
    if t = bsTok then
      match rest with
      | [] => .ok ([], [])
      | l :: ls => parseVals l ls
    else
      match t with
      | .num q =>
        match parseVals ts rest with
        | .error e => .error e
        | .ok (vs, r) => .ok (q :: vs, r)
      | .str s => .error (.stofError s)
termination_by ts rest => (rest.length, ts.length)
decreasing_by
  · simp_wf
    omega
  · simp_wf
    omega

@[simp] theorem parseVals_nil (rest : List Line) :
    parseVals [] rest = .ok ([], rest) := by
  rw [parseVals.eq_def]

@[simp] theorem parseVals_bs_nil (ts : List Tok) :
    parseVals (bsTok :: ts) [] = .ok ([], []) := by
  rw [parseVals.eq_def]
  simp

@[simp] theorem parseVals_bs_cons (ts : List Tok) (l : Line) (ls : List Line) :
    parseVals (bsTok :: ts) (l :: ls) = parseVals l ls := by
  rw [parseVals.eq_def]
  simp

@[simp] theorem parseVals_num (q : ℚ) (ts : List Tok) (rest : List Line) :
    parseVals (Tok.num q :: ts) rest =
      match parseVals ts rest with
      | .error e => .error e
      | .ok (vs, r) => .ok (q :: vs, r) := by
  rw [parseVals.eq_def]
  simp [bsTok]

@[simp] theorem parseVals_str (s : String) (ts : List Tok) (rest : List Line)
    (h : s ≠ "\\") :
    parseVals (Tok.str s :: ts) rest = .error (.stofError s) := by
  rw [parseVals.eq_def]
  simp [bsTok, h]

theorem parseVals_rest_length (ts : List Tok) (rest : List Line) :
    ∀ vs r, parseVals ts rest = .ok (vs, r) → r.length ≤ rest.length := by
  induction ts, rest using parseVals.induct with
  | case1 rest =>
    intro vs r h
    simp only [parseVals_nil] at h
    cases h
    exact le_rfl
  | case2 ts =>
    intro vs r h
    simp only [parseVals_bs_nil] at h
    cases h
    simp
  | case3 ts l ls ih =>
    intro vs r h
    simp only [parseVals_bs_cons] at h
    have := ih vs r h
    simp only [List.length_cons]
    omega
  | case4 ts rest q e he hbs ih =>
    intro vs r h
    simp only [parseVals_num, he] at h
    exact Except.noConfusion h
  | case5 ts rest q vs2 r2 hok hbs ih =>
    intro vs r h
    simp only [parseVals_num, hok] at h
    cases h
    exact ih vs2 r2 hok
  | case6 ts rest s hbs =>
    intro vs r h
    have hs : s ≠ "\\" := by
      intro hc
      exact hbs (by simp [bsTok, hc])
    simp only [parseVals_str s ts rest hs] at h
    exact Except.noConfusion h

/-- A 3D point (`glm::vec<3, T>`), coordinates exact. -/
structure Pt where
  x : ℚ
  y : ℚ
  z : ℚ
deriving DecidableEq, Repr

instance : Inhabited Pt := ⟨⟨0, 0, 0⟩⟩

/-- The buffer `four_coords` of the `v` handler. -/
structure Coords4 where
  c0 : ℚ
  c1 : ℚ
  c2 : ℚ
  c3 : ℚ
deriving DecidableEq, Repr

/-- `four_coords[index] = q`. -/
def setCoord (c : Coords4) (i : Nat) (q : ℚ) : Coords4 :=
  match i with
  | 0 => { c with c0 := q }
  | 1 => { c with c1 := q }
  | 2 => { c with c2 := q }
  | _ => { c with c3 := q }

/-- The `v`-record field loop (obj.h lines 69–72 and 211–214):

    int index = 0;
    while (ssline && index <= 3) { ssline >> four_coords[index++]; }

`operator>>(double&)` semantics: when the stream is already exhausted the
sentry fails and the slot is left unchanged (keeping its default); when a
non-numeric token is present, `num_get` runs, fails, and stores `0.0`
(C++11), after which the loop exits. -/
def vLoop (toks : List Tok) (index : Nat) (c : Coords4) : Coords4 :=
  if index ≤ 3 then
    match toks with
    | [] => c
    | Tok.num q :: ts => vLoop ts (index + 1) (setCoord c index q)
    | Tok.str _ :: _ => setCoord c index 0
  else c
termination_by toks.length

/-- The full `v` handler body (obj.h lines 65–75, 207–217): defaults
`(0, 0, 0, 1)`, reads up to 4 fields, yields the appended control point
and weight. -/
def readVRecord (toks : List Tok) : Pt × ℚ :=
  let c := vLoop toks 0 ⟨0, 0, 0, 1⟩
  (⟨c.c0, c.c1, c.c2⟩, c.c3)

/-- The required-section flags of `curveReadOBJ` (obj.h lines 53–55).
In the C++ the struct object is default-initialized, so the flags start
with indeterminate values; the initial value is therefore a parameter of
the embedded reader. -/
structure ToParse where
  deg : Bool
  cstype : Bool
  curv : Bool
  parm : Bool
deriving DecidableEq, Repr

/-- The scan-loop state of `curveReadOBJ` (locals of obj.h lines 39–57
plus the `deg`/`rational` out-parameters written during the scan). -/
structure CurveSt where
  ctrl_pts_buf : List Pt
  weights_buf : List ℚ
  indices : List Int
  temp_knots : List ℚ
  deg : Nat
  rational : Bool
  parsed : ToParse
deriving DecidableEq, Repr

/-- Result of processing one record line: continue the scan on the given
remaining lines, or break out of the scan loop. -/
inductive StepRes (σ : Type) where
  | cont (st : σ) (rest : List Line)
  | stop (st : σ)

/-- One iteration of the `curveReadOBJ` scan loop (obj.h lines 59–130),
processing the line just read; `ls` is the rest of the file, from which
continuation lines are pulled.  A blank line is skipped (`continue`,
line 60–62); `end` breaks (line 126–127); unknown keywords are ignored. -/
def curveStepLine (st : CurveSt) (line : Line) (ls : List Line) :
    Except ReadErr (StepRes CurveSt) :=
  match line with
  | [] => .ok (.cont st ls)
  | startTok :: toks =>
    if startTok = Tok.str "v" then
      .ok (.cont { st with
        ctrl_pts_buf := st.ctrl_pts_buf ++ [(readVRecord toks).1],
        weights_buf := st.weights_buf ++ [(readVRecord toks).2] } ls)
    else if startTok = Tok.str "cstype" then
      match toks with
      | Tok.str "bspline" :: _ =>
        .ok (.cont { st with
          rational := false,
          parsed := { st.parsed with cstype := true } } ls)
      | Tok.str "rat" :: Tok.str "bspline" :: _ =>
        .ok (.cont { st with
          rational := true,
          parsed := { st.parsed with cstype := true } } ls)
      | _ => .ok (.cont st ls)
    else if startTok = Tok.str "deg" then
      -- `ssline >> deg`: a numeric token is read; a non-numeric token makes
      -- num_get store 0; an absent token leaves `deg` unchanged.
      match toks with
      | Tok.num q :: _ =>
        .ok (.cont { st with
          deg := (cppReadUInt q).1,
          parsed := { st.parsed with deg := true } } ls)
      | Tok.str _ :: _ =>
        .ok (.cont { st with
          deg := 0,
          parsed := { st.parsed with deg := true } } ls)
      | [] =>
        .ok (.cont { st with parsed := { st.parsed with deg := true } } ls)
    else if startTok = Tok.str "curv" then
      -- `ssline >> knot_min >> knot_max` must consume two numeric tokens for
      -- the index loop to run (a failed extraction sets failbit and the
      -- `while (ssline >> token)` loop is skipped); the bound values are
      -- read but never used.  `parsed.curv` is set in every case.
      match toks with
      | Tok.num _ :: Tok.num _ :: rest =>
        match parseVals rest ls with
        | .error e => .error e
        | .ok (vs, ls2) =>
          .ok (.cont { st with
            indices := st.indices ++ vs.map cppTruncToInt,
            parsed := { st.parsed with curv := true } } ls2)
      | _ => .ok (.cont { st with parsed := { st.parsed with curv := true } } ls)
    else if startTok = Tok.str "parm" then
      -- `ssline >> start`: knot values are collected only when the axis
      -- token is "u"; `parsed.parm` is set regardless (obj.h line 124).
      match toks with
      | Tok.str "u" :: rest =>
        match parseVals rest ls with
        | .error e => .error e
        | .ok (vs, ls2) =>
          .ok (.cont { st with
            temp_knots := st.temp_knots ++ vs,
            parsed := { st.parsed with parm := true } } ls2)
      | _ => .ok (.cont { st with parsed := { st.parsed with parm := true } } ls)
    else if startTok = Tok.str "end" then
      .ok (.stop st)
    else
      .ok (.cont st ls)

theorem curveStepLine_rest_le (st st2 : CurveSt) (line : Line)
    (ls ls2 : List Line) (h : curveStepLine st line ls = .ok (.cont st2 ls2)) :
    ls2.length ≤ ls.length := by
  unfold curveStepLine at h
  repeat' split at h
  all_goals
    first
      | exact Except.noConfusion h
      | (injection h with h1
         first
           | exact StepRes.noConfusion h1
           | (injection h1 with h2 h3
              subst h3
              first
                | exact le_rfl
                | exact parseVals_rest_length _ _ _ _ (by assumption)))

/-- The `curveReadOBJ` scan loop (obj.h lines 59–130). -/
def curveScan (st : CurveSt) (lines : List Line) : Except ReadErr CurveSt :=
  match lines with
  | [] => .ok st
  | l :: ls =>
    match h : curveStepLine st l ls with
    | .error e => .error e
    | .ok (.stop st2) => .ok st2
    | .ok (.cont st2 ls2) => curveScan st2 ls2
termination_by lines.length
decreasing_by
  have := curveStepLine_rest_le st st2 l ls ls2 h
  simp_wf
  omega

/-- The required-record check of `curveReadOBJ` (obj.h lines 133–145),
in source order: cstype, deg, curv, parm. -/
def requiredCurveCheck (p : ToParse) : Except ReadErr Unit :=
  if !p.cstype then .error .missingCstype
  else if !p.deg then .error .missingDeg
  else if !p.curv then .error .missingCurv
  else if !p.parm then .error .missingParm
  else .ok ()

/-- The outputs of `internal::curveReadOBJ` (its out-parameters). -/
structure CurveOut where
  deg : Nat
  knots : List ℚ
  ctrlPts : List Pt
  weights : List ℚ
  rational : Bool
deriving DecidableEq, Repr

/-- The structure-building tail of `curveReadOBJ` (obj.h lines 147–160):

    int num_knots = temp_knots.size();
    int num_cp = num_knots - deg - 1;
    ctrlPts.resize(num_cp); weights.resize(num_cp);
    for (int i = 0; i < num_cp; ++i) {
        assert(i < ctrlPts.size());
        ctrlPts[i] = ctrl_pts_buf[indices[num] - 1];
        weights[i] = weights_buf[indices[num] - 1];
        ++num;
    }
    knots = temp_knots;

A negative `num_cp` converts to a huge `size_t` and `resize` throws
(`lengthError`).  The `assert` checks only the destination index `i`,
which always holds after the resize; the vertex-pool subscripts
`indices[num]` and `ctrl_pts_buf[...]`/`weights_buf[...]` are unchecked
(`cppVecGetN`/`cppVecGet`). -/
def curveBuild (st : CurveSt) : Except ReadErr CurveOut :=
  let num_knots : Int := st.temp_knots.length
  let num_cp : Int := cppNumCp num_knots st.deg
  if num_cp < 0 then .error .lengthError
  else
    .ok { deg := st.deg
        , knots := st.temp_knots
        , ctrlPts := (List.range num_cp.toNat).map
            (fun i => cppVecGet st.ctrl_pts_buf (cppVecGetN st.indices i - 1))
        , weights := (List.range num_cp.toNat).map
            (fun i => cppVecGet st.weights_buf (cppVecGetN st.indices i - 1))
        , rational := st.rational }

/-- Initial values of the scan: `deg` and `rational` are out-parameters
whose incoming values the C++ may leave untouched; `parsed` is the
default-initialized (hence indeterminate, undefined behaviour to read)
`ToParse` struct of obj.h line 57. -/
structure CurveInit where
  deg : Nat
  rational : Bool
  parsed : ToParse
deriving DecidableEq, Repr

/-- Scan state at entry of `curveReadOBJ`: all buffers empty. -/
def initCurveSt (ini : CurveInit) : CurveSt :=
  { ctrl_pts_buf := []
  , weights_buf := []
  , indices := []
  , temp_knots := []
  , deg := ini.deg
  , rational := ini.rational
  , parsed := ini.parsed }

/-- `internal::curveReadOBJ` (obj.h lines 36–161) on an already-opened
file: scan all records, run the required-record check, then build. -/
def internalCurveReadOBJ (ini : CurveInit) (file : List Line) :
    Except ReadErr CurveOut := do
  let st ← curveScan (initCurveSt ini) file
  let _ ← requiredCurveCheck st.parsed
  curveBuild st

/-- The `v` output line for one control point and weight
(obj.h lines 338–341, 387–391). -/
def mkVLine (p : Pt) (w : ℚ) : Line :=
  [Tok.str "v", Tok.num p.x, Tok.num p.y, Tok.num p.z, Tok.num w]

/-- `internal::curveSaveOBJ` (obj.h lines 331–363): emit all `v` records,
the `cstype` line, the `deg` line, the `curv` line whose two leading
fields are `knots[degree]` and `knots[n_knots - degree - 1]` followed by
the identity index list `1..n_cp`, the `parm u` line with the full knot
vector, and `end`.  `weights[i]` is an unchecked subscript
(`cppVecGetN`), and the two knot subscripts are likewise unchecked
(`cppVecGet`, the second computed in `int` arithmetic). -/
def internalCurveSaveOBJ (degree : Nat) (knots : List ℚ) (ctrlPts : List Pt)
    (weights : List ℚ) (rational : Bool) : List Line :=
  (List.range ctrlPts.length).map
    (fun i => mkVLine (cppVecGetN ctrlPts i) (cppVecGetN weights i))
  ++ [if rational then [Tok.str "cstype", Tok.str "rat", Tok.str "bspline"]
      else [Tok.str "cstype", Tok.str "bspline"]]
  ++ [[Tok.str "deg", Tok.num (degree : ℚ)]]
  ++ [[Tok.str "curv", Tok.num (cppVecGetN knots degree),
       Tok.num (cppVecGet knots ((knots.length : Int) - degree - 1))]
      ++ (List.range ctrlPts.length).map (fun i => Tok.num ((i + 1 : ℕ) : ℚ))]
  ++ [[Tok.str "parm", Tok.str "u"] ++ knots.map Tok.num]
  ++ [[Tok.str "end"]]

/-- Modelled from the spec: the 2D-grid container `array2` (declared in
`tinynurbs/util/array2.h`, which accompanies the repository but is not
among the given sources).  Per spec §6 it supports `resize(rows, cols)`,
`(i, j)` element access, `rows()`, `cols()`.  Elements are modelled as a
total function of the two indices; per-cell access and update are the
only operations the codec uses, so the concrete storage layout is
irrelevant here. -/
structure array2 (α : Type) where
  rows : Nat
  cols : Nat
  dat : Nat → Nat → α

/-- `(i, j)` element read access. -/
def array2.get {α : Type} (g : array2 α) (i j : Nat) : α := g.dat i j

/-- `(i, j)` element write access. -/
def array2.set {α : Type} (g : array2 α) (i j : Nat) (a : α) : array2 α :=
  { g with dat := fun i2 j2 => if i2 = i ∧ j2 = j then a else g.dat i2 j2 }

/-- `resize(rows, cols)` applied to an empty grid: fresh contents. -/
def array2.mkFill {α : Type} (rows cols : Nat) (a : α) : array2 α :=
  { rows := rows, cols := cols, dat := fun _ _ => a }

/-- Extensional equality of grids: same extents and same entries at every
in-range position. -/
def array2.ExtEq {α : Type} (g1 g2 : array2 α) : Prop :=
  g1.rows = g2.rows ∧ g1.cols = g2.cols ∧
    ∀ i < g1.rows, ∀ j < g1.cols, g1.get i j = g2.get i j

/-- A C++ `for (k = 0; k < n; ++k)` loop over a state. -/
def forLoop {σ : Type} (n : Nat) (f : Nat → σ → σ) (s : σ) : σ :=
  (List.range n).foldl (fun s k => f k s) s

/-- The required-section flags of `surfaceReadOBJ` (obj.h lines 195–197). -/
structure ToParseS where
  deg : Bool
  cstype : Bool
  surf : Bool
  parm : Bool
deriving DecidableEq, Repr

/-- The scan-loop state of `surfaceReadOBJ` (locals of obj.h lines
178–199 plus the `deg_u`/`deg_v`/`rational` out-parameters written
during the scan). -/
structure SurfSt where
  ctrl_pts_buf : List Pt
  weights_buf : List ℚ
  indices : List Int
  temp_uknots : List ℚ
  temp_vknots : List ℚ
  deg_u : Nat
  deg_v : Nat
  rational : Bool
  parsed : ToParseS
deriving DecidableEq, Repr

/-- One iteration of the `surfaceReadOBJ` scan loop (obj.h lines
201–284).  Unlike the curve reader, a blank line `break`s out of the
scan (lines 202–204), i.e. behaves like `end`. -/
def surfStepLine (st : SurfSt) (line : Line) (ls : List Line) :
    Except ReadErr (StepRes SurfSt) :=
  match line with
  | [] => .ok (.stop st)
  | startTok :: toks =>
    if startTok = Tok.str "v" then
      .ok (.cont { st with
        ctrl_pts_buf := st.ctrl_pts_buf ++ [(readVRecord toks).1],
        weights_buf := st.weights_buf ++ [(readVRecord toks).2] } ls)
    else if startTok = Tok.str "cstype" then
      match toks with
      | Tok.str "bspline" :: _ =>
        .ok (.cont { st with
          rational := false,
          parsed := { st.parsed with cstype := true } } ls)
      | Tok.str "rat" :: Tok.str "bspline" :: _ =>
        .ok (.cont { st with
          rational := true,
          parsed := { st.parsed with cstype := true } } ls)
      | _ => .ok (.cont st ls)
    else if startTok = Tok.str "deg" then
      -- `ssline >> deg_u >> deg_v`: each extraction follows the same
      -- stream semantics as the curve `deg` handler; once the first
      -- extraction fails (failbit), the second is not attempted.
      match toks with
      | Tok.num q :: rest2 =>
        if (cppReadUInt q).2 then
          -- the first extraction raised failbit (out-of-range field):
          -- the second extraction's sentry fails, deg_v is untouched
          .ok (.cont { st with
            deg_u := (cppReadUInt q).1,
            parsed := { st.parsed with deg := true } } ls)
        else
          match rest2 with
          | Tok.num p :: _ =>
            .ok (.cont { st with
              deg_u := (cppReadUInt q).1,
              deg_v := (cppReadUInt p).1,
              parsed := { st.parsed with deg := true } } ls)
          | Tok.str _ :: _ =>
            .ok (.cont { st with
              deg_u := (cppReadUInt q).1,
              deg_v := 0,
              parsed := { st.parsed with deg := true } } ls)
          | [] =>
            .ok (.cont { st with
              deg_u := (cppReadUInt q).1,
              parsed := { st.parsed with deg := true } } ls)
      | Tok.str _ :: _ =>
        .ok (.cont { st with
          deg_u := 0,
          parsed := { st.parsed with deg := true } } ls)
      | [] =>
        .ok (.cont { st with parsed := { st.parsed with deg := true } } ls)
    else if startTok = Tok.str "surf" then
      -- Four knot-domain bounds must be consumed before the index loop
      -- runs; their values are read but never used.
      match toks with
      | Tok.num _ :: Tok.num _ :: Tok.num _ :: Tok.num _ :: rest =>
        match parseVals rest ls with
        | .error e => .error e
        | .ok (vs, ls2) =>
          .ok (.cont { st with
            indices := st.indices ++ vs.map cppTruncToInt,
            parsed := { st.parsed with surf := true } } ls2)
      | _ => .ok (.cont { st with parsed := { st.parsed with surf := true } } ls)
    else if startTok = Tok.str "parm" then
      match toks with
      | Tok.str "u" :: rest =>
        match parseVals rest ls with
        | .error e => .error e
        | .ok (vs, ls2) =>
          .ok (.cont { st with
            temp_uknots := st.temp_uknots ++ vs,
            parsed := { st.parsed with parm := true } } ls2)
      | Tok.str "v" :: rest =>
        match parseVals rest ls with
        | .error e => .error e
        | .ok (vs, ls2) =>
          .ok (.cont { st with
            temp_vknots := st.temp_vknots ++ vs,
            parsed := { st.parsed with parm := true } } ls2)
      | _ => .ok (.cont { st with parsed := { st.parsed with parm := true } } ls)
    else if startTok = Tok.str "end" then
      .ok (.stop st)
    else
      .ok (.cont st ls)

theorem surfStepLine_rest_le (st st2 : SurfSt) (line : Line)
    (ls ls2 : List Line) (h : surfStepLine st line ls = .ok (.cont st2 ls2)) :
    ls2.length ≤ ls.length := by
  unfold surfStepLine at h
  repeat' split at h
  all_goals
    first
      | exact Except.noConfusion h
      | (injection h with h1
         first
           | exact StepRes.noConfusion h1
           | (injection h1 with h2 h3
              subst h3
              first
                | exact le_rfl
                | exact parseVals_rest_length _ _ _ _ (by assumption)))

/-- The `surfaceReadOBJ` scan loop (obj.h lines 201–284). -/
def surfScan (st : SurfSt) (lines : List Line) : Except ReadErr SurfSt :=
  match lines with
  | [] => .ok st
  | l :: ls =>
    match h : surfStepLine st l ls with
    | .error e => .error e
    | .ok (.stop st2) => .ok st2
    | .ok (.cont st2 ls2) => surfScan st2 ls2
termination_by lines.length
decreasing_by
  have := surfStepLine_rest_le st st2 l ls ls2 h
  simp_wf
  omega

/-- The required-record check of `surfaceReadOBJ` (obj.h lines 287–299). -/
def requiredSurfCheck (p : ToParseS) : Except ReadErr Unit :=
  if !p.cstype then .error .missingCstype
  else if !p.deg then .error .missingDeg
  else if !p.surf then .error .missingSurf
  else if !p.parm then .error .missingParm
  else .ok ()

/-- The outputs of `internal::surfaceReadOBJ` (its out-parameters). -/
structure SurfOut where
  deg_u : Nat
  deg_v : Nat
  knots_u : List ℚ
  knots_v : List ℚ
  ctrlPts : array2 Pt
  weights : array2 ℚ
  rational : Bool

/-- One step of the surface fill loop body (obj.h lines 311–314):
`ctrlPts(i, j) = ctrl_pts_buf[indices[num] - 1]; weights(i, j) = ...; ++num;`.
The `assert` checks `i < rows && j < cols`, which always holds after the
resize; the pool subscripts are unchecked. -/
def surfFillStep (bufP : List Pt) (bufW : List ℚ) (indices : List Int)
    (j i : Nat) (acc : array2 Pt × array2 ℚ × Nat) :
    array2 Pt × array2 ℚ × Nat :=
  (acc.1.set i j (cppVecGet bufP (cppVecGetN indices acc.2.2 - 1)),
   acc.2.1.set i j (cppVecGet bufW (cppVecGetN indices acc.2.2 - 1)),
   acc.2.2 + 1)

/-- The double fill loop of `surfaceReadOBJ` (obj.h lines 308–316):
`for (j < num_cp_v) for (i < num_cp_u) { body; ++num }` with `num`
starting at 0, so the index list is consumed with `i` (the u index)
varying fastest. -/
def surfFill (bufP : List Pt) (bufW : List ℚ) (indices : List Int)
    (nU nV : Nat) (gP : array2 Pt) (gW : array2 ℚ) :
    array2 Pt × array2 ℚ × Nat :=
  forLoop nV (fun j acc => forLoop nU (surfFillStep bufP bufW indices j) acc)
    (gP, gW, 0)

/-- The structure-building tail of `surfaceReadOBJ` (obj.h lines
301–319); negative derived extents make `resize` throw, as in the
curve case. -/
def surfBuild (st : SurfSt) : Except ReadErr SurfOut :=
  let num_knots_u : Int := st.temp_uknots.length
  let num_knots_v : Int := st.temp_vknots.length
  let num_cp_u : Int := cppNumCp num_knots_u st.deg_u
  let num_cp_v : Int := cppNumCp num_knots_v st.deg_v
  if num_cp_u < 0 ∨ num_cp_v < 0 then .error .lengthError
  else
    let nU := num_cp_u.toNat
    let nV := num_cp_v.toNat
    let fills := surfFill st.ctrl_pts_buf st.weights_buf st.indices nU nV
      (array2.mkFill nU nV default) (array2.mkFill nU nV default)
    .ok { deg_u := st.deg_u
        , deg_v := st.deg_v
        , knots_u := st.temp_uknots
        , knots_v := st.temp_vknots
        , ctrlPts := fills.1
        , weights := fills.2.1
        , rational := st.rational }

/-- Initial values of the surface scan, as for the curve reader. -/
structure SurfInit where
  deg_u : Nat
  deg_v : Nat
  rational : Bool
  parsed : ToParseS
deriving DecidableEq, Repr

/-- Scan state at entry of `surfaceReadOBJ`: all buffers empty. -/
def initSurfSt (ini : SurfInit) : SurfSt :=
  { ctrl_pts_buf := []
  , weights_buf := []
  , indices := []
  , temp_uknots := []
  , temp_vknots := []
  , deg_u := ini.deg_u
  , deg_v := ini.deg_v
  , rational := ini.rational
  , parsed := ini.parsed }

/-- `internal::surfaceReadOBJ` (obj.h lines 174–320) on an
already-opened file. -/
def internalSurfaceReadOBJ (ini : SurfInit) (file : List Line) :
    Except ReadErr SurfOut := do
  let st ← surfScan (initSurfSt ini) file
  let _ ← requiredSurfCheck st.parsed
  surfBuild st

/-- `internal::surfaceSaveOBJ` (obj.h lines 376–421).  An empty
control-point grid returns before anything is emitted (lines 383–385),
leaving the freshly opened file empty.  Vertices are emitted with the
u index varying fastest (`for j in cols, for i in rows`, lines
387–391), then `cstype`, `deg`, the `surf` line with four knot-domain
bounds and the identity index list `1..nU*nV`, `parm u`, `parm v`,
`end`. -/
def internalSurfaceSaveOBJ (deg_u deg_v : Nat) (knots_u knots_v : List ℚ)
    (ctrlPts : array2 Pt) (weights : array2 ℚ) (rational : Bool) :
    List Line :=
  if ctrlPts.rows = 0 ∨ ctrlPts.cols = 0 then []
  else
    (List.range ctrlPts.cols).flatMap
      (fun j => (List.range ctrlPts.rows).map
        (fun i => mkVLine (ctrlPts.get i j) (weights.get i j)))
    ++ [if rational then [Tok.str "cstype", Tok.str "rat", Tok.str "bspline"]
        else [Tok.str "cstype", Tok.str "bspline"]]
    ++ [[Tok.str "deg", Tok.num (deg_u : ℚ), Tok.num (deg_v : ℚ)]]
    ++ [[Tok.str "surf",
         Tok.num (cppVecGetN knots_u deg_u),
         Tok.num (cppVecGet knots_u ((knots_u.length : Int) - deg_u - 1)),
         Tok.num (cppVecGetN knots_v deg_v),
         Tok.num (cppVecGet knots_v ((knots_v.length : Int) - deg_v - 1))]
        ++ (List.range (ctrlPts.rows * ctrlPts.cols)).map
             (fun i => Tok.num ((i + 1 : ℕ) : ℚ))]
    ++ [[Tok.str "parm", Tok.str "u"] ++ knots_u.map Tok.num]
    ++ [[Tok.str "parm", Tok.str "v"] ++ knots_v.map Tok.num]
    ++ [[Tok.str "end"]]

/-- `tinynurbs::Curve` (geometry/curve.h), instantiated at `dim = 3` as
used by the OBJ wrappers; a non-rational curve carries no weights. -/
structure Curve where
  degree : Nat
  knots : List ℚ
  control_points : List Pt
deriving DecidableEq, Repr

/-- `tinynurbs::RationalCurve`, instantiated at `dim = 3`. -/
structure RationalCurve where
  degree : Nat
  knots : List ℚ
  control_points : List Pt
  weights : List ℚ
deriving DecidableEq, Repr

/-- `tinynurbs::Surface` (geometry/surface.h); no weights. -/
structure Surface where
  degree_u : Nat
  degree_v : Nat
  knots_u : List ℚ
  knots_v : List ℚ
  control_points : array2 Pt

/-- `tinynurbs::RationalSurface`. -/
structure RationalSurface where
  degree_u : Nat
  degree_v : Nat
  knots_u : List ℚ
  knots_v : List ℚ
  control_points : array2 Pt
  weights : array2 ℚ

/-- Public `curveReadOBJ(filename, Curve&)` (obj.h lines 432–448):
the weights and the rational flag of the internal reader are ignored;
with `dim = 3` the coordinate copy is the identity. -/
def curveReadOBJ_C (ini : CurveInit) (file : List Line) :
    Except ReadErr Curve := do
  let out ← internalCurveReadOBJ ini file
  .ok { degree := out.deg, knots := out.knots, control_points := out.ctrlPts }

/-- Public `curveReadOBJ(filename, RationalCurve&)` (obj.h lines
455–469): the weights are kept, the rational flag is ignored. -/
def curveReadOBJ_RC (ini : CurveInit) (file : List Line) :
    Except ReadErr RationalCurve := do
  let out ← internalCurveReadOBJ ini file
  .ok { degree := out.deg, knots := out.knots,
        control_points := out.ctrlPts, weights := out.weights }

/-- Public `surfaceReadOBJ(filename, Surface&)` (obj.h lines 488–495):
the weights grid and the rational flag are ignored. -/
def surfaceReadOBJ_S (ini : SurfInit) (file : List Line) :
    Except ReadErr Surface := do
  let out ← internalSurfaceReadOBJ ini file
  .ok { degree_u := out.deg_u, degree_v := out.deg_v,
        knots_u := out.knots_u, knots_v := out.knots_v,
        control_points := out.ctrlPts }

/-- Public `surfaceReadOBJ(filename, RationalSurface&)` (obj.h lines
476–481). -/
def surfaceReadOBJ_RS (ini : SurfInit) (file : List Line) :
    Except ReadErr RationalSurface := do
  let out ← internalSurfaceReadOBJ ini file
  .ok { degree_u := out.deg_u, degree_v := out.deg_v,
        knots_u := out.knots_u, knots_v := out.knots_v,
        control_points := out.ctrlPts, weights := out.weights }

/-- Public `curveSaveOBJ(filename, Curve&)` (obj.h lines 502–513):
weights are a fresh vector of ones, rational is false. -/
def curveSaveOBJ_C (crv : Curve) : List Line :=
  internalCurveSaveOBJ crv.degree crv.knots crv.control_points
    (List.replicate crv.control_points.length 1) false

/-- Public `curveSaveOBJ(filename, RationalCurve&)` (obj.h lines
520–530): the curve's own weights, rational true. -/
def curveSaveOBJ_RC (crv : RationalCurve) : List Line :=
  internalCurveSaveOBJ crv.degree crv.knots crv.control_points
    crv.weights true

/-- Public `surfaceSaveOBJ(filename, Surface&)` (obj.h lines 537–542):
weights are a fresh grid of ones, rational false. -/
def surfaceSaveOBJ_S (srf : Surface) : List Line :=
  internalSurfaceSaveOBJ srf.degree_u srf.degree_v srf.knots_u srf.knots_v
    srf.control_points
    (array2.mkFill srf.control_points.rows srf.control_points.cols 1) false

/-- Public `surfaceSaveOBJ(filename, RationalSurface&)` (obj.h lines
549–553). -/
def surfaceSaveOBJ_RS (srf : RationalSurface) : List Line :=
  internalSurfaceSaveOBJ srf.degree_u srf.degree_v srf.knots_u srf.knots_v
    srf.control_points srf.weights true

/-- All-false required-section flags: the value the C++ code evidently
assumes the default-initialized `ToParse` to hold. -/
def iniFF : CurveInit := ⟨0, false, ⟨false, false, false, false⟩⟩

/-- All-false initial flags for the surface reader. -/
def iniSFF : SurfInit := ⟨0, 0, false, ⟨false, false, false, false⟩⟩

/-- The control-point grid of a surface-read result (used to state
concrete facts about successful reads without naming the whole output). -/
def readCtrlGrid (r : Except ReadErr SurfOut) : array2 Pt :=
  match r with
  | .ok out => out.ctrlPts
  | .error _ => array2.mkFill 0 0 default

/-- The in-bounds condition that the structure-building loop of
`curveReadOBJ` (obj.h lines 152–158) would need in order to stay inside
its buffers: the index list covers the derived control-point count and
every used 1-based index resolves within the vertex pool.  The code
checks none of this (its `assert` constrains only the destination
subscript `i`, which is trivially in range after the `resize`). -/
def curveAccessesInBounds (st : CurveSt) : Prop :=
  let num_cp := (cppNumCp (st.temp_knots.length : Int) st.deg).toNat
  num_cp ≤ st.indices.length ∧
    ∀ k < num_cp, 1 ≤ cppVecGetN st.indices k ∧
      cppVecGetN st.indices k ≤ (st.ctrl_pts_buf.length : Int)

instance (st : CurveSt) : Decidable (curveAccessesInBounds st) := by
  unfold curveAccessesInBounds
  exact instDecidableAnd

/-- The list format the spec's continuation convention describes: the
first chunk on the record's own line, every non-final line ending in the
trailing backslash marker, each later chunk on its own physical line. -/
def contSplit : List (List ℚ) → List Tok × List Line
  | [] => ([], [])
  | [c] => (c.map Tok.num, [])
  | c :: c2 :: cs =>
    ((c.map Tok.num) ++ [bsTok],
     (contSplit (c2 :: cs)).1 :: (contSplit (c2 :: cs)).2)

/-- The surface-read output, or a fixed dummy on error (lets closed
statements name the payload of a successful read). -/
def outOrDefault (r : Except ReadErr SurfOut) : SurfOut :=
  match r with
  | .ok o => o
  | .error _ =>
    ⟨0, 0, [], [], array2.mkFill 0 0 default, array2.mkFill 0 0 default, false⟩

/-- A curve file whose only `parm` record has axis `v`. -/
def c10File : List Line :=
  [ [Tok.str "v", Tok.num 0, Tok.num 0, Tok.num 0]
  , [Tok.str "cstype", Tok.str "bspline"]
  , [Tok.str "deg", Tok.num 1]
  , [Tok.str "curv", Tok.num 0, Tok.num 1, Tok.num 1]
  , [Tok.str "parm", Tok.str "v", Tok.num 0, Tok.num 0, Tok.num 1, Tok.num 1]
  , [Tok.str "end"] ]

/-- A curve file with `v`, `cstype`, `curv` and `parm` records but no
`deg` record. -/
def c2File : List Line :=
  [ [Tok.str "v", Tok.num 0, Tok.num 0, Tok.num 0]
  , [Tok.str "cstype", Tok.str "bspline"]
  , [Tok.str "curv", Tok.num 0, Tok.num 1, Tok.num 1]
  , [Tok.str "parm", Tok.str "u", Tok.num 0, Tok.num 1] ]

/-- A curve file whose `deg` record holds 4294967295 = 2^32 - 1, so
that the builder's 32-bit `num_knots - deg - 1` wraps back to the
number of knots. -/
def c8File : List Line :=
  [ [Tok.str "v", Tok.num 1, Tok.num 0, Tok.num 0]
  , [Tok.str "v", Tok.num 2, Tok.num 0, Tok.num 0]
  , [Tok.str "v", Tok.num 3, Tok.num 0, Tok.num 0]
  , [Tok.str "v", Tok.num 4, Tok.num 0, Tok.num 0]
  , [Tok.str "cstype", Tok.str "bspline"]
  , [Tok.str "deg", Tok.num 4294967295]
  , [Tok.str "curv", Tok.num 0, Tok.num 1, Tok.num 1, Tok.num 2, Tok.num 3,
      Tok.num 4]
  , [Tok.str "parm", Tok.str "u", Tok.num 0, Tok.num 0, Tok.num 1, Tok.num 1]
  , [Tok.str "end"] ]

/-- A surface file with `v`, `cstype`, `surf` and `parm` records but no
`deg` record. -/
def s2File : List Line :=
  [ [Tok.str "v", Tok.num 0, Tok.num 0, Tok.num 0]
  , [Tok.str "cstype", Tok.str "bspline"]
  , [Tok.str "surf", Tok.num 0, Tok.num 1, Tok.num 0, Tok.num 1, Tok.num 1]
  , [Tok.str "parm", Tok.str "u", Tok.num 0, Tok.num 1]
  , [Tok.str "parm", Tok.str "v", Tok.num 0, Tok.num 1] ]

/-- A curve file whose single 1-based index (2) exceeds the one-vertex
pool. -/
def c3FileA : List Line :=
  [ [Tok.str "v", Tok.num 5, Tok.num 6, Tok.num 7, Tok.num 2]
  , [Tok.str "cstype", Tok.str "bspline"]
  , [Tok.str "deg", Tok.num 0]
  , [Tok.str "curv", Tok.num 0, Tok.num 1, Tok.num 2]
  , [Tok.str "parm", Tok.str "u", Tok.num 0, Tok.num 1]
  , [Tok.str "end"] ]

/-- A curve file whose index list (one entry) is shorter than the
derived control-point count (two). -/
def c3FileB : List Line :=
  [ [Tok.str "v", Tok.num 5, Tok.num 6, Tok.num 7, Tok.num 2]
  , [Tok.str "cstype", Tok.str "bspline"]
  , [Tok.str "deg", Tok.num 0]
  , [Tok.str "curv", Tok.num 0, Tok.num 1, Tok.num 1]
  , [Tok.str "parm", Tok.str "u", Tok.num 0, Tok.num 0, Tok.num 1]
  , [Tok.str "end"] ]

/-- The scan state accumulated from the nU=2, nV=3 example file: six
vertices, degrees (1, 2), knot vectors of lengths 4 and 6, index list
`1 2 3 4 5 6`. -/
def c6St : SurfSt :=
  { ctrl_pts_buf := [⟨1, 0, 0⟩, ⟨2, 0, 0⟩, ⟨3, 0, 0⟩, ⟨4, 0, 0⟩,
                     ⟨5, 0, 0⟩, ⟨6, 0, 0⟩]
  , weights_buf := [1, 1, 1, 1, 1, 1]
  , indices := [1, 2, 3, 4, 5, 6]
  , temp_uknots := [0, 0, 1, 1]
  , temp_vknots := [0, 0, 0, 1, 1, 1]
  , deg_u := 1
  , deg_v := 2
  , rational := false
  , parsed := ⟨true, true, true, true⟩ }

/-- The nU=2, nV=3 example surface file. -/
def c6File : List Line :=
  [ [Tok.str "v", Tok.num 1, Tok.num 0, Tok.num 0]
  , [Tok.str "v", Tok.num 2, Tok.num 0, Tok.num 0]
  , [Tok.str "v", Tok.num 3, Tok.num 0, Tok.num 0]
  , [Tok.str "v", Tok.num 4, Tok.num 0, Tok.num 0]
  , [Tok.str "v", Tok.num 5, Tok.num 0, Tok.num 0]
  , [Tok.str "v", Tok.num 6, Tok.num 0, Tok.num 0]
  , [Tok.str "cstype", Tok.str "bspline"]
  , [Tok.str "deg", Tok.num 1, Tok.num 2]
  , [Tok.str "surf", Tok.num 0, Tok.num 1, Tok.num 0, Tok.num 1,
     Tok.num 1, Tok.num 2, Tok.num 3, Tok.num 4, Tok.num 5, Tok.num 6]
  , [Tok.str "parm", Tok.str "u", Tok.num 0, Tok.num 0, Tok.num 1, Tok.num 1]
  , [Tok.str "parm", Tok.str "v", Tok.num 0, Tok.num 0, Tok.num 0,
     Tok.num 1, Tok.num 1, Tok.num 1]
  , [Tok.str "end"] ]

/-- A degenerate surface with an empty control-point grid that still
satisfies the length invariants (`1 = 0 + 0 + 1` per axis). -/
def srfEmpty : Surface :=
  { degree_u := 0, degree_v := 0, knots_u := [0], knots_v := [0]
  , control_points := array2.mkFill 0 0 ⟨0, 0, 0⟩ }

theorem forLoop_zero {σ : Type} (f : Nat → σ → σ) (s : σ) :
    forLoop 0 f s = s := rfl

theorem forLoop_succ {σ : Type} (n : Nat) (f : Nat → σ → σ) (s : σ) :
    forLoop (n + 1) f s = f n (forLoop n f s) := by
  unfold forLoop
  rw [List.range_succ, List.foldl_append]
  rfl

/-- The vertex pool that reading back a saved surface accumulates:
the grid entries with the u index varying fastest. -/
def gridPool {α : Type} (rows cols : Nat) (f : Nat → Nat → α) : List α :=
  (List.range cols).flatMap (fun j => (List.range rows).map (fun i => f i j))

@[simp] theorem curveScan_nil (st : CurveSt) : curveScan st [] = .ok st := by
  rw [curveScan.eq_def]

@[simp] theorem curveScan_cons (st : CurveSt) (l : Line) (ls : List Line) :
    curveScan st (l :: ls) =
      match curveStepLine st l ls with
      | .error e => .error e
      | .ok (.stop st2) => .ok st2
      | .ok (.cont st2 ls2) => curveScan st2 ls2 := by
  rw [curveScan.eq_def]
  split
  · simp_all
  · split <;> simp_all

@[simp] theorem surfScan_nil (st : SurfSt) : surfScan st [] = .ok st := by
  rw [surfScan.eq_def]

@[simp] theorem surfScan_cons (st : SurfSt) (l : Line) (ls : List Line) :
    surfScan st (l :: ls) =
      match surfStepLine st l ls with
      | .error e => .error e
      | .ok (.stop st2) => .ok st2
      | .ok (.cont st2 ls2) => surfScan st2 ls2 := by
  rw [surfScan.eq_def]
  split
  · simp_all
  · split <;> simp_all

@[simp] theorem vLoop_gt (toks : List Tok) (index : Nat) (c : Coords4)
    (h : 3 < index) : vLoop toks index c = c := by
  rw [vLoop.eq_def]
  simp [Nat.not_le_of_lt h]

@[simp] theorem vLoop_nil (index : Nat) (c : Coords4) :
    vLoop [] index c = c := by
  rw [vLoop.eq_def]
  split <;> rfl

@[simp] theorem vLoop_num (q : ℚ) (ts : List Tok) (index : Nat) (c : Coords4)
    (h : index ≤ 3) :
    vLoop (Tok.num q :: ts) index c = vLoop ts (index + 1) (setCoord c index q) := by
  rw [vLoop.eq_def]
  simp [h]

@[simp] theorem vLoop_str (s : String) (ts : List Tok) (index : Nat)
    (c : Coords4) (h : index ≤ 3) :
    vLoop (Tok.str s :: ts) index c = setCoord c index 0 := by
  rw [vLoop.eq_def]
  simp [h]

theorem cppTruncToInt_natCast (n : ℕ) : cppTruncToInt (n : ℚ) = n := by
  simp [cppTruncToInt, Rat.num_natCast, Rat.den_natCast]

theorem cppReadUInt_natCast (n : ℕ) (h : n < 4294967296) :
    cppReadUInt (n : ℚ) = (n, false) := by
  unfold cppReadUInt
  rw [cppTruncToInt_natCast]
  rw [if_pos ⟨Int.natCast_nonneg n, by exact_mod_cast h⟩]
  simp

theorem cppNumCp_addCancel (c deg : ℕ) (hc : c < 2147483648) :
    cppNumCp ((c + deg + 1 : ℕ) : Int) deg = (c : Int) := by
  unfold cppNumCp wrap32 toSigned32
  have h1 : ((c + deg + 1 : ℕ) : Int) - deg - 1 = (c : Int) := by
    push_cast
    ring
  rw [h1]
  have h2 : (c : Int) % 4294967296 = (c : Int) := by omega
  rw [h2, Int.toNat_natCast, if_pos hc]

theorem cppNumCp_spec (len deg : ℕ) (h : 0 ≤ cppNumCp (len : Int) deg) :
    ((cppNumCp (len : Int) deg).toNat + deg + 1) % 4294967296 =
      len % 4294967296 ∧
    (deg < 2147483648 → len < 2147483648 →
      len = (cppNumCp (len : Int) deg).toNat + deg + 1) := by
  unfold cppNumCp wrap32 toSigned32 at h ⊢
  by_cases hs : ((((len : Int) - deg - 1) % 4294967296).toNat < 2147483648)
  · rw [if_pos hs] at h ⊢
    refine ⟨?_, fun h1 h2 => ?_⟩ <;> omega
  · rw [if_neg hs] at h ⊢
    refine ⟨?_, fun h1 h2 => ?_⟩ <;> omega

theorem cppVecGet_natCast {α : Type} [Inhabited α] (xs : List α) (i : ℕ) :
    cppVecGet xs (i : Int) = cppVecGetN xs i := by
  simp [cppVecGet, cppVecGetN]

theorem cppVecGetN_map_range {α : Type} [Inhabited α] (xs : List α) :
    (List.range xs.length).map (fun i => cppVecGetN xs i) = xs := by
  induction xs with
  | nil => simp
  | cons x xs ih =>
    rw [List.length_cons, List.range_succ_eq_map, List.map_cons, List.map_map]
    have h2 : ((fun i => cppVecGetN (x :: xs) i) ∘ Nat.succ)
        = fun i => cppVecGetN xs i := by
      funext i
      simp [cppVecGetN]
    rw [h2, ih]
    simp [cppVecGetN]

theorem cppVecGetN_map_range_lt {β : Type} [Inhabited β] (n : Nat)
    (f : Nat → β) (i : Nat) (h : i < n) :
    cppVecGetN ((List.range n).map f) i = f i := by
  unfold cppVecGetN
  rw [List.getD_eq_getElem?_getD]
  rw [List.getElem?_map]
  rw [List.getElem?_range h]
  rfl

theorem parseVals_prepend_num (qs : List ℚ) (ts : List Tok) (rest : List Line) :
    parseVals (qs.map Tok.num ++ ts) rest =
      (parseVals ts rest).map (fun p => (qs ++ p.1, p.2)) := by
  induction qs with
  | nil =>
    cases h : parseVals ts rest with
    | error e => simp [Except.map, h]
    | ok p => simp [Except.map, h]
  | cons q qs ih =>
    simp only [List.map_cons, List.cons_append, parseVals_num, ih]
    cases h : parseVals ts rest with
    | error e => simp [Except.map, h]
    | ok p => simp [Except.map, h]

theorem parseVals_map_num (qs : List ℚ) (rest : List Line) :
    parseVals (qs.map Tok.num) rest = .ok (qs, rest) := by
  have h := parseVals_prepend_num qs [] rest
  simpa [Except.map] using h

theorem readVRecord_four (x y z w : ℚ) :
    readVRecord [Tok.num x, Tok.num y, Tok.num z, Tok.num w] = (⟨x, y, z⟩, w) := by
  simp [readVRecord, setCoord]

theorem curveStepLine_v (st : CurveSt) (toks : List Tok) (ls : List Line) :
    curveStepLine st (Tok.str "v" :: toks) ls =
      .ok (.cont { st with
        ctrl_pts_buf := st.ctrl_pts_buf ++ [(readVRecord toks).1],
        weights_buf := st.weights_buf ++ [(readVRecord toks).2] } ls) := by
  simp [curveStepLine]

theorem surfStepLine_v (st : SurfSt) (toks : List Tok) (ls : List Line) :
    surfStepLine st (Tok.str "v" :: toks) ls =
      .ok (.cont { st with
        ctrl_pts_buf := st.ctrl_pts_buf ++ [(readVRecord toks).1],
        weights_buf := st.weights_buf ++ [(readVRecord toks).2] } ls) := by
  simp [surfStepLine]

theorem curveStepLine_mkV (st : CurveSt) (p : Pt) (w : ℚ) (ls : List Line) :
    curveStepLine st (mkVLine p w) ls =
      .ok (.cont { st with
        ctrl_pts_buf := st.ctrl_pts_buf ++ [p],
        weights_buf := st.weights_buf ++ [w] } ls) := by
  simp [mkVLine, curveStepLine_v, readVRecord_four]

theorem surfStepLine_mkV (st : SurfSt) (p : Pt) (w : ℚ) (ls : List Line) :
    surfStepLine st (mkVLine p w) ls =
      .ok (.cont { st with
        ctrl_pts_buf := st.ctrl_pts_buf ++ [p],
        weights_buf := st.weights_buf ++ [w] } ls) := by
  simp [mkVLine, surfStepLine_v, readVRecord_four]

theorem curveScan_vlines (ps : List (Pt × ℚ)) (st : CurveSt) (rest : List Line) :
    curveScan st (ps.map (fun pw => mkVLine pw.1 pw.2) ++ rest) =
      curveScan { st with
        ctrl_pts_buf := st.ctrl_pts_buf ++ ps.map Prod.fst,
        weights_buf := st.weights_buf ++ ps.map Prod.snd } rest := by
  induction ps generalizing st with
  | nil => simp
  | cons pw ps ih =>
    simp only [List.map_cons, List.cons_append, curveScan_cons,
      curveStepLine_mkV]
    rw [ih]
    simp [List.append_assoc]

theorem surfScan_vlines (ps : List (Pt × ℚ)) (st : SurfSt) (rest : List Line) :
    surfScan st (ps.map (fun pw => mkVLine pw.1 pw.2) ++ rest) =
      surfScan { st with
        ctrl_pts_buf := st.ctrl_pts_buf ++ ps.map Prod.fst,
        weights_buf := st.weights_buf ++ ps.map Prod.snd } rest := by
  induction ps generalizing st with
  | nil => simp
  | cons pw ps ih =>
    simp only [List.map_cons, List.cons_append, surfScan_cons,
      surfStepLine_mkV]
    rw [ih]
    simp [List.append_assoc]

theorem curveStepLine_cstype_bspline (st : CurveSt) (rest : List Tok)
    (ls : List Line) :
    curveStepLine st (Tok.str "cstype" :: Tok.str "bspline" :: rest) ls =
      .ok (.cont { st with
        rational := false,
        parsed := { st.parsed with cstype := true } } ls) := by
  simp [curveStepLine]

theorem curveStepLine_cstype_rat (st : CurveSt) (rest : List Tok)
    (ls : List Line) :
    curveStepLine st
        (Tok.str "cstype" :: Tok.str "rat" :: Tok.str "bspline" :: rest) ls =
      .ok (.cont { st with
        rational := true,
        parsed := { st.parsed with cstype := true } } ls) := by
  simp [curveStepLine]

theorem curveStepLine_deg_num (st : CurveSt) (q : ℚ) (rest : List Tok)
    (ls : List Line) :
    curveStepLine st (Tok.str "deg" :: Tok.num q :: rest) ls =
      .ok (.cont { st with
        deg := (cppReadUInt q).1,
        parsed := { st.parsed with deg := true } } ls) := by
  simp [curveStepLine]

theorem curveStepLine_curv_num (st : CurveSt) (a b : ℚ) (qs : List ℚ)
    (ls : List Line) :
    curveStepLine st
        (Tok.str "curv" :: Tok.num a :: Tok.num b :: qs.map Tok.num) ls =
      .ok (.cont { st with
        indices := st.indices ++ qs.map cppTruncToInt,
        parsed := { st.parsed with curv := true } } ls) := by
  simp [curveStepLine, parseVals_map_num]

theorem curveStepLine_parm_u (st : CurveSt) (qs : List ℚ) (ls : List Line) :
    curveStepLine st (Tok.str "parm" :: Tok.str "u" :: qs.map Tok.num) ls =
      .ok (.cont { st with
        temp_knots := st.temp_knots ++ qs,
        parsed := { st.parsed with parm := true } } ls) := by
  simp [curveStepLine, parseVals_map_num]

theorem curveStepLine_end (st : CurveSt) (ls : List Line) :
    curveStepLine st [Tok.str "end"] ls = .ok (.stop st) := by
  simp [curveStepLine]

theorem curveScan_save (ini : CurveInit) (degree : Nat) (knots : List ℚ)
    (cps : List Pt) (ws : List ℚ) (rational : Bool)
    (hw : ws.length = cps.length) (hdeg : degree < 4294967296) :
    curveScan (initCurveSt ini)
        (internalCurveSaveOBJ degree knots cps ws rational) =
      .ok { ctrl_pts_buf := cps
          , weights_buf := ws
          , indices := (List.range cps.length).map (fun i => ((i + 1 : ℕ) : Int))
          , temp_knots := knots
          , deg := degree
          , rational := rational
          , parsed := ⟨true, true, true, true⟩ } := by
  unfold internalCurveSaveOBJ
  have hvl : (List.range cps.length).map
      (fun i => mkVLine (cppVecGetN cps i) (cppVecGetN ws i)) =
      ((List.range cps.length).map
        (fun i => (cppVecGetN cps i, cppVecGetN ws i))).map
        (fun pw => mkVLine pw.1 pw.2) := by
    rw [List.map_map]
    rfl
  rw [hvl]
  simp only [List.append_assoc, List.singleton_append, List.cons_append,
    List.nil_append]
  rw [curveScan_vlines]
  have hfst : ((List.range cps.length).map
      (fun i => (cppVecGetN cps i, cppVecGetN ws i))).map Prod.fst = cps := by
    rw [List.map_map]
    exact cppVecGetN_map_range cps
  have hsnd : ((List.range cps.length).map
      (fun i => (cppVecGetN cps i, cppVecGetN ws i))).map Prod.snd = ws := by
    rw [List.map_map]
    show (List.range cps.length).map (fun i => cppVecGetN ws i) = ws
    rw [← hw]
    exact cppVecGetN_map_range ws
  rw [hfst, hsnd]
  have hidx : (List.range cps.length).map (fun i => Tok.num ((i + 1 : ℕ) : ℚ)) =
      ((List.range cps.length).map (fun i => ((i + 1 : ℕ) : ℚ))).map Tok.num := by
    rw [List.map_map]
    rfl
  have hmapidx : ((List.range cps.length).map
      (fun i => ((i + 1 : ℕ) : ℚ))).map cppTruncToInt =
      (List.range cps.length).map (fun i => ((i + 1 : ℕ) : Int)) := by
    rw [List.map_map]
    have hfun : (cppTruncToInt ∘ fun i => ((i + 1 : ℕ) : ℚ)) =
        fun i => ((i + 1 : ℕ) : Int) := by
      funext a
      exact cppTruncToInt_natCast (a + 1)
    rw [hfun]
  rw [hidx]
  have hdg : cppReadUInt ((degree : ℕ) : ℚ) = (degree, false) :=
    cppReadUInt_natCast degree hdeg
  cases rational with
  | false =>
    rw [if_neg (by simp)]
    simp only [List.cons_append, List.nil_append, List.append_assoc,
      List.singleton_append, curveScan_cons, curveStepLine_cstype_bspline,
      curveStepLine_deg_num, curveStepLine_curv_num, curveStepLine_parm_u,
      curveStepLine_end, curveScan_nil, initCurveSt,
      hdg, hmapidx]
  | true =>
    rw [if_pos rfl]
    simp only [List.cons_append, List.nil_append, List.append_assoc,
      List.singleton_append, curveScan_cons, curveStepLine_cstype_rat,
      curveStepLine_deg_num, curveStepLine_curv_num, curveStepLine_parm_u,
      curveStepLine_end, curveScan_nil, initCurveSt,
      hdg, hmapidx]

theorem cppIdentityIndexResolve {α : Type} [Inhabited α] (xs : List α)
    (n : Nat) (hn : xs.length = n) :
    (List.range n).map
      (fun i => cppVecGet xs
        (cppVecGetN ((List.range n).map (fun k => ((k + 1 : ℕ) : Int))) i - 1)) =
      xs := by
  have hcongr : ∀ i ∈ List.range n,
      cppVecGet xs
        (cppVecGetN ((List.range n).map (fun k => ((k + 1 : ℕ) : Int))) i - 1) =
      cppVecGetN xs i := by
    intro i hi
    rw [List.mem_range] at hi
    rw [cppVecGetN_map_range_lt n _ i hi]
    have hsub : ((i + 1 : ℕ) : Int) - 1 = ((i : ℕ) : Int) := by
      push_cast
      ring
    rw [hsub, cppVecGet_natCast]
  rw [List.map_congr_left hcongr]
  subst hn
  exact cppVecGetN_map_range xs

theorem internalCurve_roundtrip (ini : CurveInit) (degree : Nat)
    (knots : List ℚ) (cps : List Pt) (ws : List ℚ) (rational : Bool)
    (hk : knots.length = cps.length + degree + 1)
    (hw : ws.length = cps.length)
    (hdeg : degree < 4294967296) (hcps : cps.length < 2147483648) :
    internalCurveReadOBJ ini (internalCurveSaveOBJ degree knots cps ws rational) =
      .ok { deg := degree, knots := knots, ctrlPts := cps
          , weights := ws, rational := rational } := by
  unfold internalCurveReadOBJ
  rw [curveScan_save ini degree knots cps ws rational hw hdeg]
  simp only [Bind.bind, Except.bind, requiredCurveCheck, Bool.not_true,
    Bool.false_eq_true, if_false, if_neg]
  unfold curveBuild
  have hcp : cppNumCp ((knots.length : ℕ) : Int) degree = (cps.length : Int) := by
    rw [hk]
    exact cppNumCp_addCancel cps.length degree hcps
  simp only [hcp]
  rw [if_neg (by omega)]
  have htn : (cps.length : Int).toNat = cps.length := Int.toNat_natCast _
  simp only [htn]
  rw [cppIdentityIndexResolve cps cps.length rfl,
    cppIdentityIndexResolve ws cps.length hw]

theorem array2.get_set {α : Type} (g : array2 α) (i j : Nat) (a : α)
    (i2 j2 : Nat) :
    (g.set i j a).get i2 j2 = if i2 = i ∧ j2 = j then a else g.get i2 j2 := rfl

theorem array2.rows_set {α : Type} (g : array2 α) (i j : Nat) (a : α) :
    (g.set i j a).rows = g.rows := rfl

theorem array2.cols_set {α : Type} (g : array2 α) (i j : Nat) (a : α) :
    (g.set i j a).cols = g.cols := rfl

theorem surfFillInner_num (bufP : List Pt) (bufW : List ℚ) (indices : List Int)
    (j nU : Nat) (acc : array2 Pt × array2 ℚ × Nat) :
    (forLoop nU (surfFillStep bufP bufW indices j) acc).2.2 = acc.2.2 + nU := by
  induction nU with
  | zero => simp [forLoop_zero]
  | succ n ih =>
    rw [forLoop_succ]
    simp only [surfFillStep, ih]
    omega

theorem surfFillInner_dims (bufP : List Pt) (bufW : List ℚ) (indices : List Int)
    (j nU : Nat) (acc : array2 Pt × array2 ℚ × Nat) :
    (forLoop nU (surfFillStep bufP bufW indices j) acc).1.rows = acc.1.rows ∧
    (forLoop nU (surfFillStep bufP bufW indices j) acc).1.cols = acc.1.cols ∧
    (forLoop nU (surfFillStep bufP bufW indices j) acc).2.1.rows = acc.2.1.rows ∧
    (forLoop nU (surfFillStep bufP bufW indices j) acc).2.1.cols = acc.2.1.cols := by
  induction nU with
  | zero => simp [forLoop_zero]
  | succ n ih =>
    rw [forLoop_succ]
    simp only [surfFillStep, array2.rows_set, array2.cols_set]
    exact ih

theorem surfFillInner_getP (bufP : List Pt) (bufW : List ℚ) (indices : List Int)
    (j nU : Nat) (acc : array2 Pt × array2 ℚ × Nat) (i2 j2 : Nat) :
    (forLoop nU (surfFillStep bufP bufW indices j) acc).1.get i2 j2 =
      if i2 < nU ∧ j2 = j then
        cppVecGet bufP (cppVecGetN indices (acc.2.2 + i2) - 1)
      else acc.1.get i2 j2 := by
  induction nU with
  | zero => simp [forLoop_zero]
  | succ n ih =>
    rw [forLoop_succ]
    show ((forLoop n (surfFillStep bufP bufW indices j) acc).1.set n j
        (cppVecGet bufP (cppVecGetN indices
          (forLoop n (surfFillStep bufP bufW indices j) acc).2.2 - 1))).get i2 j2 = _
    rw [array2.get_set, surfFillInner_num, ih]
    by_cases h1 : i2 = n ∧ j2 = j
    · simp [h1.1, h1.2]
    · rw [if_neg h1]
      by_cases h2 : i2 < n ∧ j2 = j
      · rw [if_pos h2, if_pos ⟨by omega, h2.2⟩]
      · rw [if_neg h2, if_neg (by omega)]

theorem surfFillInner_getW (bufP : List Pt) (bufW : List ℚ) (indices : List Int)
    (j nU : Nat) (acc : array2 Pt × array2 ℚ × Nat) (i2 j2 : Nat) :
    (forLoop nU (surfFillStep bufP bufW indices j) acc).2.1.get i2 j2 =
      if i2 < nU ∧ j2 = j then
        cppVecGet bufW (cppVecGetN indices (acc.2.2 + i2) - 1)
      else acc.2.1.get i2 j2 := by
  induction nU with
  | zero => simp [forLoop_zero]
  | succ n ih =>
    rw [forLoop_succ]
    show ((forLoop n (surfFillStep bufP bufW indices j) acc).2.1.set n j
        (cppVecGet bufW (cppVecGetN indices
          (forLoop n (surfFillStep bufP bufW indices j) acc).2.2 - 1))).get i2 j2 = _
    rw [array2.get_set, surfFillInner_num, ih]
    by_cases h1 : i2 = n ∧ j2 = j
    · simp [h1.1, h1.2]
    · rw [if_neg h1]
      by_cases h2 : i2 < n ∧ j2 = j
      · rw [if_pos h2, if_pos ⟨by omega, h2.2⟩]
      · rw [if_neg h2, if_neg (by omega)]

theorem surfFillOuter_num (bufP : List Pt) (bufW : List ℚ) (indices : List Int)
    (nU nV : Nat) (acc : array2 Pt × array2 ℚ × Nat) :
    (forLoop nV (fun j acc2 =>
        forLoop nU (surfFillStep bufP bufW indices j) acc2) acc).2.2 =
      acc.2.2 + nV * nU := by
  induction nV with
  | zero => simp [forLoop_zero]
  | succ n ih =>
    rw [forLoop_succ, surfFillInner_num, ih]
    ring

theorem surfFillOuter_dims (bufP : List Pt) (bufW : List ℚ) (indices : List Int)
    (nU nV : Nat) (acc : array2 Pt × array2 ℚ × Nat) :
    (forLoop nV (fun j acc2 =>
        forLoop nU (surfFillStep bufP bufW indices j) acc2) acc).1.rows = acc.1.rows ∧
    (forLoop nV (fun j acc2 =>
        forLoop nU (surfFillStep bufP bufW indices j) acc2) acc).1.cols = acc.1.cols ∧
    (forLoop nV (fun j acc2 =>
        forLoop nU (surfFillStep bufP bufW indices j) acc2) acc).2.1.rows = acc.2.1.rows ∧
    (forLoop nV (fun j acc2 =>
        forLoop nU (surfFillStep bufP bufW indices j) acc2) acc).2.1.cols = acc.2.1.cols := by
  induction nV with
  | zero => simp [forLoop_zero]
  | succ n ih =>
    rw [forLoop_succ]
    have hi := surfFillInner_dims bufP bufW indices n nU
      (forLoop n (fun j acc2 =>
        forLoop nU (surfFillStep bufP bufW indices j) acc2) acc)
    exact ⟨hi.1.trans ih.1, hi.2.1.trans ih.2.1,
      hi.2.2.1.trans ih.2.2.1, hi.2.2.2.trans ih.2.2.2⟩

theorem surfFillOuter_getP (bufP : List Pt) (bufW : List ℚ) (indices : List Int)
    (nU nV : Nat) (acc : array2 Pt × array2 ℚ × Nat) (i2 j2 : Nat) :
    (forLoop nV (fun j acc2 =>
        forLoop nU (surfFillStep bufP bufW indices j) acc2) acc).1.get i2 j2 =
      if i2 < nU ∧ j2 < nV then
        cppVecGet bufP (cppVecGetN indices (acc.2.2 + j2 * nU + i2) - 1)
      else acc.1.get i2 j2 := by
  induction nV with
  | zero => simp [forLoop_zero]
  | succ n ih =>
    rw [forLoop_succ, surfFillInner_getP, surfFillOuter_num, ih]
    by_cases h1 : i2 < nU ∧ j2 = n
    · rw [if_pos h1, if_pos ⟨h1.1, by omega⟩, h1.2]
    · rw [if_neg h1]
      by_cases h2 : i2 < nU ∧ j2 < n
      · rw [if_pos h2, if_pos ⟨h2.1, by omega⟩]
      · rw [if_neg h2, if_neg (by omega)]

theorem surfFillOuter_getW (bufP : List Pt) (bufW : List ℚ) (indices : List Int)
    (nU nV : Nat) (acc : array2 Pt × array2 ℚ × Nat) (i2 j2 : Nat) :
    (forLoop nV (fun j acc2 =>
        forLoop nU (surfFillStep bufP bufW indices j) acc2) acc).2.1.get i2 j2 =
      if i2 < nU ∧ j2 < nV then
        cppVecGet bufW (cppVecGetN indices (acc.2.2 + j2 * nU + i2) - 1)
      else acc.2.1.get i2 j2 := by
  induction nV with
  | zero => simp [forLoop_zero]
  | succ n ih =>
    rw [forLoop_succ, surfFillInner_getW, surfFillOuter_num, ih]
    by_cases h1 : i2 < nU ∧ j2 = n
    · rw [if_pos h1, if_pos ⟨h1.1, by omega⟩, h1.2]
    · rw [if_neg h1]
      by_cases h2 : i2 < nU ∧ j2 < n
      · rw [if_pos h2, if_pos ⟨h2.1, by omega⟩]
      · rw [if_neg h2, if_neg (by omega)]

theorem surfBuild_ok_elim (st : SurfSt) (out : SurfOut)
    (h : surfBuild st = .ok out) :
    out.deg_u = st.deg_u ∧ out.deg_v = st.deg_v ∧
    out.knots_u = st.temp_uknots ∧ out.knots_v = st.temp_vknots ∧
    out.rational = st.rational ∧
    0 ≤ cppNumCp (st.temp_uknots.length : Int) st.deg_u ∧
    0 ≤ cppNumCp (st.temp_vknots.length : Int) st.deg_v ∧
    out.ctrlPts.rows = (cppNumCp (st.temp_uknots.length : Int) st.deg_u).toNat ∧
    out.ctrlPts.cols = (cppNumCp (st.temp_vknots.length : Int) st.deg_v).toNat ∧
    out.weights.rows = out.ctrlPts.rows ∧
    out.weights.cols = out.ctrlPts.cols ∧
    (∀ i j, i < out.ctrlPts.rows → j < out.ctrlPts.cols →
      out.ctrlPts.get i j =
        cppVecGet st.ctrl_pts_buf
          (cppVecGetN st.indices (j * out.ctrlPts.rows + i) - 1)) ∧
    (∀ i j, i < out.ctrlPts.rows → j < out.ctrlPts.cols →
      out.weights.get i j =
        cppVecGet st.weights_buf
          (cppVecGetN st.indices (j * out.ctrlPts.rows + i) - 1)) := by
  unfold surfBuild at h
  dsimp only at h
  split at h
  · exact Except.noConfusion h
  · rename_i hcond
    injection h with h1
    subst h1
    dsimp only
    simp only [surfFill]
    have hdims := surfFillOuter_dims st.ctrl_pts_buf st.weights_buf st.indices
      (cppNumCp (st.temp_uknots.length : Int) st.deg_u).toNat
      (cppNumCp (st.temp_vknots.length : Int) st.deg_v).toNat
      (array2.mkFill (cppNumCp (st.temp_uknots.length : Int) st.deg_u).toNat
        (cppNumCp (st.temp_vknots.length : Int) st.deg_v).toNat default,
       array2.mkFill (cppNumCp (st.temp_uknots.length : Int) st.deg_u).toNat
        (cppNumCp (st.temp_vknots.length : Int) st.deg_v).toNat default, 0)
    refine ⟨by trivial, by trivial, by trivial, by trivial, by trivial,
      by omega, by omega,
      hdims.1, hdims.2.1,
      hdims.2.2.1.trans hdims.1.symm, hdims.2.2.2.trans hdims.2.1.symm,
      ?_, ?_⟩
    · intro i j hi hj
      rw [hdims.1] at hi
      rw [hdims.2.1] at hj
      simp only [array2.mkFill] at hi hj
      have hget := surfFillOuter_getP st.ctrl_pts_buf st.weights_buf st.indices
        (cppNumCp (st.temp_uknots.length : Int) st.deg_u).toNat
        (cppNumCp (st.temp_vknots.length : Int) st.deg_v).toNat
        (array2.mkFill (cppNumCp (st.temp_uknots.length : Int) st.deg_u).toNat
          (cppNumCp (st.temp_vknots.length : Int) st.deg_v).toNat default,
         array2.mkFill (cppNumCp (st.temp_uknots.length : Int) st.deg_u).toNat
          (cppNumCp (st.temp_vknots.length : Int) st.deg_v).toNat default, 0) i j
      rw [hget, if_pos ⟨hi, hj⟩, hdims.1]
      simp [array2.mkFill]
    · intro i j hi hj
      rw [hdims.1] at hi
      rw [hdims.2.1] at hj
      simp only [array2.mkFill] at hi hj
      have hget := surfFillOuter_getW st.ctrl_pts_buf st.weights_buf st.indices
        (cppNumCp (st.temp_uknots.length : Int) st.deg_u).toNat
        (cppNumCp (st.temp_vknots.length : Int) st.deg_v).toNat
        (array2.mkFill (cppNumCp (st.temp_uknots.length : Int) st.deg_u).toNat
          (cppNumCp (st.temp_vknots.length : Int) st.deg_v).toNat default,
         array2.mkFill (cppNumCp (st.temp_uknots.length : Int) st.deg_u).toNat
          (cppNumCp (st.temp_vknots.length : Int) st.deg_v).toNat default, 0) i j
      rw [hget, if_pos ⟨hi, hj⟩, hdims.1]
      simp [array2.mkFill]

theorem surfStepLine_cstype_bspline (st : SurfSt) (rest : List Tok)
    (ls : List Line) :
    surfStepLine st (Tok.str "cstype" :: Tok.str "bspline" :: rest) ls =
      .ok (.cont { st with
        rational := false,
        parsed := { st.parsed with cstype := true } } ls) := by
  simp [surfStepLine]

theorem surfStepLine_cstype_rat (st : SurfSt) (rest : List Tok)
    (ls : List Line) :
    surfStepLine st
        (Tok.str "cstype" :: Tok.str "rat" :: Tok.str "bspline" :: rest) ls =
      .ok (.cont { st with
        rational := true,
        parsed := { st.parsed with cstype := true } } ls) := by
  simp [surfStepLine]

theorem surfStepLine_deg_two (st : SurfSt) (q p : ℚ) (rest : List Tok)
    (ls : List Line) (h : (cppReadUInt q).2 = false) :
    surfStepLine st (Tok.str "deg" :: Tok.num q :: Tok.num p :: rest) ls =
      .ok (.cont { st with
        deg_u := (cppReadUInt q).1,
        deg_v := (cppReadUInt p).1,
        parsed := { st.parsed with deg := true } } ls) := by
  simp [surfStepLine, h]

theorem surfStepLine_surf_num (st : SurfSt) (a b c d : ℚ) (qs : List ℚ)
    (ls : List Line) :
    surfStepLine st
        (Tok.str "surf" :: Tok.num a :: Tok.num b :: Tok.num c :: Tok.num d ::
          qs.map Tok.num) ls =
      .ok (.cont { st with
        indices := st.indices ++ qs.map cppTruncToInt,
        parsed := { st.parsed with surf := true } } ls) := by
  simp [surfStepLine, parseVals_map_num]

theorem surfStepLine_parm_u (st : SurfSt) (qs : List ℚ) (ls : List Line) :
    surfStepLine st (Tok.str "parm" :: Tok.str "u" :: qs.map Tok.num) ls =
      .ok (.cont { st with
        temp_uknots := st.temp_uknots ++ qs,
        parsed := { st.parsed with parm := true } } ls) := by
  simp [surfStepLine, parseVals_map_num]

theorem surfStepLine_parm_v (st : SurfSt) (qs : List ℚ) (ls : List Line) :
    surfStepLine st (Tok.str "parm" :: Tok.str "v" :: qs.map Tok.num) ls =
      .ok (.cont { st with
        temp_vknots := st.temp_vknots ++ qs,
        parsed := { st.parsed with parm := true } } ls) := by
  simp [surfStepLine, parseVals_map_num]

theorem surfStepLine_end (st : SurfSt) (ls : List Line) :
    surfStepLine st [Tok.str "end"] ls = .ok (.stop st) := by
  simp [surfStepLine]

theorem flat_grid_getD {β : Type} [Inhabited β] (nU : Nat) (f : Nat → Nat → β)
    (i j : Nat) (hi : i < nU) :
    ∀ nV, j < nV →
      cppVecGetN ((List.range nV).flatMap
        (fun j2 => (List.range nU).map (fun i2 => f i2 j2))) (j * nU + i) =
      f i j := by
  induction j generalizing f with
  | zero =>
    intro nV hj
    cases nV with
    | zero => omega
    | succ m =>
      rw [List.range_succ_eq_map, List.flatMap_cons]
      unfold cppVecGetN
      rw [List.getD_append _ _ _ _ (by simpa using hi)]
      show cppVecGetN ((List.range nU).map (fun i2 => f i2 0)) (0 * nU + i) = f i 0
      rw [Nat.zero_mul, Nat.zero_add, cppVecGetN_map_range_lt nU _ i hi]
  | succ j2 ih =>
    intro nV hj
    cases nV with
    | zero => omega
    | succ m =>
      rw [List.range_succ_eq_map, List.flatMap_cons, List.flatMap_map]
      unfold cppVecGetN
      rw [List.getD_append_right _ _ _ _ (by simp; nlinarith)]
      have hlen : ((List.range nU).map (fun i2 => f i2 0)).length = nU := by simp
      rw [hlen]
      have hpos : (j2 + 1) * nU + i - nU = j2 * nU + i := by
        have : (j2 + 1) * nU = j2 * nU + nU := by ring
        omega
      rw [hpos]
      exact ih (fun i2 j3 => f i2 (j3 + 1)) m (by omega)

theorem surfScan_save (ini : SurfInit) (du dv : Nat) (ku kv : List ℚ)
    (g : array2 Pt) (w : array2 ℚ) (rational : Bool)
    (hne : ¬(g.rows = 0 ∨ g.cols = 0))
    (hdu : du < 4294967296) (hdv : dv < 4294967296) :
    surfScan (initSurfSt ini)
        (internalSurfaceSaveOBJ du dv ku kv g w rational) =
      .ok { ctrl_pts_buf := gridPool g.rows g.cols (fun i j => g.get i j)
          , weights_buf := gridPool g.rows g.cols (fun i j => w.get i j)
          , indices := (List.range (g.rows * g.cols)).map
              (fun k => ((k + 1 : ℕ) : Int))
          , temp_uknots := ku
          , temp_vknots := kv
          , deg_u := du
          , deg_v := dv
          , rational := rational
          , parsed := ⟨true, true, true, true⟩ } := by
  unfold internalSurfaceSaveOBJ
  rw [if_neg hne]
  have hvl : (List.range g.cols).flatMap
      (fun j => (List.range g.rows).map
        (fun i => mkVLine (g.get i j) (w.get i j))) =
      (gridPool g.rows g.cols (fun i j => (g.get i j, w.get i j))).map
        (fun pw => mkVLine pw.1 pw.2) := by
    unfold gridPool
    rw [List.map_flatMap]
    congr 1
    funext j
    rw [List.map_map]
    rfl
  rw [hvl]
  simp only [List.append_assoc, List.singleton_append, List.cons_append,
    List.nil_append]
  rw [surfScan_vlines]
  have hfst : (gridPool g.rows g.cols (fun i j => (g.get i j, w.get i j))).map
      Prod.fst = gridPool g.rows g.cols (fun i j => g.get i j) := by
    unfold gridPool
    rw [List.map_flatMap]
    congr 1
    funext j
    rw [List.map_map]
    rfl
  have hsnd : (gridPool g.rows g.cols (fun i j => (g.get i j, w.get i j))).map
      Prod.snd = gridPool g.rows g.cols (fun i j => w.get i j) := by
    unfold gridPool
    rw [List.map_flatMap]
    congr 1
    funext j
    rw [List.map_map]
    rfl
  rw [hfst, hsnd]
  have hidx : (List.range (g.rows * g.cols)).map
      (fun i => Tok.num ((i + 1 : ℕ) : ℚ)) =
      ((List.range (g.rows * g.cols)).map
        (fun i => ((i + 1 : ℕ) : ℚ))).map Tok.num := by
    rw [List.map_map]
    rfl
  have hmapidx : ((List.range (g.rows * g.cols)).map
      (fun i => ((i + 1 : ℕ) : ℚ))).map cppTruncToInt =
      (List.range (g.rows * g.cols)).map (fun i => ((i + 1 : ℕ) : Int)) := by
    rw [List.map_map]
    have hfun : (cppTruncToInt ∘ fun i => ((i + 1 : ℕ) : ℚ)) =
        fun i => ((i + 1 : ℕ) : Int) := by
      funext a
      exact cppTruncToInt_natCast (a + 1)
    rw [hfun]
  rw [hidx]
  have hdgu : cppReadUInt ((du : ℕ) : ℚ) = (du, false) :=
    cppReadUInt_natCast du hdu
  have hdgv : cppReadUInt ((dv : ℕ) : ℚ) = (dv, false) :=
    cppReadUInt_natCast dv hdv
  cases rational with
  | false =>
    rw [if_neg (by simp)]
    simp only [List.cons_append, List.nil_append, List.append_assoc,
      List.singleton_append, surfScan_cons, surfStepLine_cstype_bspline,
      surfStepLine_deg_two, surfStepLine_surf_num, surfStepLine_parm_u,
      surfStepLine_parm_v, surfStepLine_end, surfScan_nil, initSurfSt,
      hdgu, hdgv, hmapidx]
  | true =>
    rw [if_pos rfl]
    simp only [List.cons_append, List.nil_append, List.append_assoc,
      List.singleton_append, surfScan_cons, surfStepLine_cstype_rat,
      surfStepLine_deg_two, surfStepLine_surf_num, surfStepLine_parm_u,
      surfStepLine_parm_v, surfStepLine_end, surfScan_nil, initSurfSt,
      hdgu, hdgv, hmapidx]

theorem internalSurf_roundtrip (ini : SurfInit) (du dv : Nat) (ku kv : List ℚ)
    (g : array2 Pt) (w : array2 ℚ) (rational : Bool)
    (hku : ku.length = g.rows + du + 1) (hkv : kv.length = g.cols + dv + 1)
    (hr : 1 ≤ g.rows) (hc : 1 ≤ g.cols)
    (hdu : du < 4294967296) (hdv : dv < 4294967296)
    (hr2 : g.rows < 2147483648) (hc2 : g.cols < 2147483648) :
    ∃ out,
      internalSurfaceReadOBJ ini
          (internalSurfaceSaveOBJ du dv ku kv g w rational) = .ok out ∧
      out.deg_u = du ∧ out.deg_v = dv ∧
      out.knots_u = ku ∧ out.knots_v = kv ∧
      out.rational = rational ∧
      out.ctrlPts.rows = g.rows ∧ out.ctrlPts.cols = g.cols ∧
      out.weights.rows = g.rows ∧ out.weights.cols = g.cols ∧
      (∀ i < g.rows, ∀ j < g.cols, out.ctrlPts.get i j = g.get i j) ∧
      (∀ i < g.rows, ∀ j < g.cols, out.weights.get i j = w.get i j) := by
  have hne : ¬(g.rows = 0 ∨ g.cols = 0) := by omega
  have hndu : cppNumCp ((ku.length : ℕ) : Int) du = ((g.rows : ℕ) : Int) := by
    rw [hku]
    exact cppNumCp_addCancel g.rows du hr2
  have hndv : cppNumCp ((kv.length : ℕ) : Int) dv = ((g.cols : ℕ) : Int) := by
    rw [hkv]
    exact cppNumCp_addCancel g.cols dv hc2
  obtain ⟨out, hout⟩ : ∃ out, surfBuild
      { ctrl_pts_buf := gridPool g.rows g.cols (fun i j => g.get i j)
      , weights_buf := gridPool g.rows g.cols (fun i j => w.get i j)
      , indices := (List.range (g.rows * g.cols)).map
          (fun k => ((k + 1 : ℕ) : Int))
      , temp_uknots := ku
      , temp_vknots := kv
      , deg_u := du
      , deg_v := dv
      , rational := rational
      , parsed := ⟨true, true, true, true⟩ } = .ok out := by
    unfold surfBuild
    dsimp only
    rw [if_neg (by
      rw [hndu, hndv]
      omega)]
    exact ⟨_, rfl⟩
  obtain ⟨e1, e2, e3, e4, e5, e6, e7, e8, e9, e10, e11, e12, e13⟩ :=
    surfBuild_ok_elim _ _ hout
  have hrows : out.ctrlPts.rows = g.rows := by
    rw [e8]
    show (cppNumCp ((ku.length : ℕ) : Int) du).toNat = g.rows
    rw [hndu, Int.toNat_natCast]
  have hcols : out.ctrlPts.cols = g.cols := by
    rw [e9]
    show (cppNumCp ((kv.length : ℕ) : Int) dv).toNat = g.cols
    rw [hndv, Int.toNat_natCast]
  refine ⟨out, ?_, e1, e2, e3, e4, e5, hrows, hcols,
    e10.trans hrows, e11.trans hcols, ?_, ?_⟩
  · unfold internalSurfaceReadOBJ
    rw [surfScan_save ini du dv ku kv g w rational hne hdu hdv]
    simp only [Bind.bind, Except.bind]
    exact hout
  · intro i hi j hj
    have h12 := e12 i j (by omega) (by omega)
    rw [h12, hrows]
    have hlt : j * g.rows + i < g.rows * g.cols := by nlinarith
    rw [cppVecGetN_map_range_lt _ _ _ hlt]
    have hsub : ((j * g.rows + i + 1 : ℕ) : Int) - 1 =
        ((j * g.rows + i : ℕ) : Int) := by
      push_cast
      ring
    rw [hsub, cppVecGet_natCast]
    show cppVecGetN (gridPool g.rows g.cols (fun i j => g.get i j))
      (j * g.rows + i) = g.get i j
    unfold gridPool
    exact flat_grid_getD g.rows (fun i2 j2 => g.get i2 j2) i j hi g.cols hj
  · intro i hi j hj
    have h13 := e13 i j (by omega) (by omega)
    rw [h13, hrows]
    have hlt : j * g.rows + i < g.rows * g.cols := by nlinarith
    rw [cppVecGetN_map_range_lt _ _ _ hlt]
    have hsub : ((j * g.rows + i + 1 : ℕ) : Int) - 1 =
        ((j * g.rows + i : ℕ) : Int) := by
      push_cast
      ring
    rw [hsub, cppVecGet_natCast]
    show cppVecGetN (gridPool g.rows g.cols (fun i j => w.get i j))
      (j * g.rows + i) = w.get i j
    unfold gridPool
    exact flat_grid_getD g.rows (fun i2 j2 => w.get i2 j2) i j hi g.cols hj

theorem parseVals_contSplit (chunks : List (List ℚ)) (rest : List Line) :
    parseVals (contSplit chunks).1 ((contSplit chunks).2 ++ rest) =
      .ok (chunks.flatten, rest) := by
  induction chunks with
  | nil =>
    show parseVals [] ([] ++ rest) = .ok ([], rest)
    simp
  | cons c cs ih =>
    cases cs with
    | nil =>
      show parseVals (c.map Tok.num) ([] ++ rest) = _
      rw [parseVals_map_num]
      simp
    | cons c2 cs2 =>
      show parseVals ((c.map Tok.num) ++ [bsTok])
        (((contSplit (c2 :: cs2)).1 :: (contSplit (c2 :: cs2)).2) ++ rest) = _
      rw [parseVals_prepend_num]
      simp only [List.cons_append, parseVals_bs_cons, ih]
      simp [Except.map]

theorem curveStepLine_parm_u_gen (st : CurveSt) (ts : List Tok)
    (ls : List Line) :
    curveStepLine st (Tok.str "parm" :: Tok.str "u" :: ts) ls =
      match parseVals ts ls with
      | .error e => .error e
      | .ok (vs, ls2) =>
        .ok (.cont { st with
          temp_knots := st.temp_knots ++ vs,
          parsed := { st.parsed with parm := true } } ls2) := by
  simp [curveStepLine]

theorem curveStepLine_curv_gen (st : CurveSt) (a b : ℚ) (ts : List Tok)
    (ls : List Line) :
    curveStepLine st (Tok.str "curv" :: Tok.num a :: Tok.num b :: ts) ls =
      match parseVals ts ls with
      | .error e => .error e
      | .ok (vs, ls2) =>
        .ok (.cont { st with
          indices := st.indices ++ vs.map cppTruncToInt,
          parsed := { st.parsed with curv := true } } ls2) := by
  simp [curveStepLine]

theorem surfStepLine_surf_gen (st : SurfSt) (a b c d : ℚ) (ts : List Tok)
    (ls : List Line) :
    surfStepLine st
        (Tok.str "surf" :: Tok.num a :: Tok.num b :: Tok.num c :: Tok.num d ::
          ts) ls =
      match parseVals ts ls with
      | .error e => .error e
      | .ok (vs, ls2) =>
        .ok (.cont { st with
          indices := st.indices ++ vs.map cppTruncToInt,
          parsed := { st.parsed with surf := true } } ls2) := by
  simp [surfStepLine]

/-- C7: the claim says a blank line terminates record scanning in BOTH
readers.  It is false for the curve reader: obj.h lines 60–62 `continue`
past blank lines, so records after the first empty line are still
processed.  Here a file whose every record follows a leading empty line
is read successfully, with all its data coming from those records. -/
theorem C7_counterexample :
    internalCurveReadOBJ iniFF
        [ []
        , [Tok.str "v", Tok.num 1, Tok.num 2, Tok.num 3]
        , [Tok.str "cstype", Tok.str "bspline"]
        , [Tok.str "deg", Tok.num 0]
        , [Tok.str "curv", Tok.num 0, Tok.num 1, Tok.num 1]
        , [Tok.str "parm", Tok.str "u", Tok.num 0, Tok.num 1]
        , [Tok.str "end"] ] =
      .ok { deg := 0, knots := [0, 1], ctrlPts := [⟨1, 2, 3⟩]
          , weights := [1], rational := false } := by
  simp [internalCurveReadOBJ, iniFF, initCurveSt, curveStepLine, readVRecord,
    setCoord, cppTruncToInt, cppReadUInt, wrap32, toSigned32, cppNumCp, requiredCurveCheck, curveBuild,
    Bind.bind, Except.bind, cppVecGet, cppVecGetN, List.range_succ]

/-- C7 (amended): a blank line is skipped by the curve reader's scan
loop (`continue`, obj.h lines 60–62), which therefore still processes
every record after it, while the surface reader's scan loop terminates
non-fatally at the first empty line (`break`, obj.h lines 202–204),
proceeding directly to the required-record check with the records
accumulated so far. -/
theorem C7_blank_line_behavior (stc : CurveSt) (sts : SurfSt)
    (ls : List Line) :
    curveStepLine stc [] ls = .ok (.cont stc ls) ∧
    curveScan stc ([] :: ls) = curveScan stc ls ∧
    surfStepLine sts [] ls = .ok (.stop sts) ∧
    surfScan sts ([] :: ls) = .ok sts := by
  refine ⟨rfl, ?_, rfl, ?_⟩
  · rw [curveScan_cons]
    rfl
  · rw [surfScan_cons]
    rfl

/-- C10: in `curveReadOBJ` every `parm` record sets `parsed.parm`
regardless of the axis token (obj.h line 124 sits outside the
`if (start == "u")`), while knot values are appended only for axis `u`;
consequently a curve file whose only parm record is `parm v ...` passes
the required-record check with an empty collected knot list (the read
then fails later, at the `resize` with the negative derived
control-point count, not with a missing-section error). -/
theorem C10_parm_axis (st : CurveSt) (axis : Tok) (rest : List Tok)
    (ls : List Line) (h : axis ≠ Tok.str "u") :
    curveStepLine st (Tok.str "parm" :: axis :: rest) ls =
      .ok (.cont { st with parsed := { st.parsed with parm := true } } ls) ∧
    (curveScan (initCurveSt iniFF) c10File = .ok
      { ctrl_pts_buf := [⟨0, 0, 0⟩], weights_buf := [1], indices := [1]
      , temp_knots := [], deg := 1, rational := false
      , parsed := ⟨true, true, true, true⟩ }) ∧
    requiredCurveCheck ⟨true, true, true, true⟩ = .ok () ∧
    internalCurveReadOBJ iniFF c10File = .error .lengthError := by
  refine ⟨?_, ?_, rfl, ?_⟩
  · cases axis with
    | num q => simp [curveStepLine]
    | str s =>
      have hs : s ≠ "u" := by
        intro hc
        exact h (by rw [hc])
      simp [curveStepLine, hs]
  · simp [c10File, iniFF, initCurveSt, curveStepLine, readVRecord, setCoord,
      cppTruncToInt, cppReadUInt, wrap32, toSigned32, cppNumCp]
  · simp [internalCurveReadOBJ, c10File, iniFF, initCurveSt, curveStepLine,
      readVRecord, setCoord, cppTruncToInt, cppReadUInt, wrap32, toSigned32, cppNumCp, requiredCurveCheck,
      curveBuild, Bind.bind, Except.bind]

/-- Witness for C10 at the concrete axis token `v`. -/
theorem C10_parm_axis_witness :
    curveStepLine (initCurveSt iniFF)
        (Tok.str "parm" :: Tok.str "v" :: [Tok.num 5]) [] =
      .ok (.cont { initCurveSt iniFF with
        parsed := { (initCurveSt iniFF).parsed with parm := true } } []) ∧
    internalCurveReadOBJ iniFF c10File = .error .lengthError := by
  have h := C10_parm_axis (initCurveSt iniFF) (Tok.str "v") [Tok.num 5] []
    (by decide)
  exact ⟨h.1, h.2.2.2⟩

theorem readVRecord_map_num (qs : List ℚ) :
    readVRecord (qs.map Tok.num) =
      (⟨qs.getD 0 0, qs.getD 1 0, qs.getD 2 0⟩, qs.getD 3 1) := by
  match qs with
  | [] => simp [readVRecord]
  | [a] => simp [readVRecord, setCoord, List.getD]
  | [a, b] => simp [readVRecord, setCoord, List.getD]
  | [a, b, c] => simp [readVRecord, setCoord, List.getD]
  | a :: b :: c :: d :: rest => simp [readVRecord, setCoord, List.getD]

/-- C4: each `v` record parses up to 4 numeric fields; fields absent from
the line keep their defaults — 0 for the position coordinates and 1 for
the weight (a trailing extraction on the exhausted stream fails at the
sentry and leaves the slot untouched) — and both readers append exactly
this vertex and weight to their pools.  In particular a `v` line with
exactly three numeric fields yields weight 1. -/
theorem C4_v_record_defaults (qs : List ℚ) (stc : CurveSt) (sts : SurfSt)
    (ls : List Line) :
    readVRecord (qs.map Tok.num) =
      (⟨qs.getD 0 0, qs.getD 1 0, qs.getD 2 0⟩, qs.getD 3 1) ∧
    curveStepLine stc (Tok.str "v" :: qs.map Tok.num) ls =
      .ok (.cont { stc with
        ctrl_pts_buf := stc.ctrl_pts_buf ++
          [⟨qs.getD 0 0, qs.getD 1 0, qs.getD 2 0⟩],
        weights_buf := stc.weights_buf ++ [qs.getD 3 1] } ls) ∧
    surfStepLine sts (Tok.str "v" :: qs.map Tok.num) ls =
      .ok (.cont { sts with
        ctrl_pts_buf := sts.ctrl_pts_buf ++
          [⟨qs.getD 0 0, qs.getD 1 0, qs.getD 2 0⟩],
        weights_buf := sts.weights_buf ++ [qs.getD 3 1] } ls) := by
  refine ⟨readVRecord_map_num qs, ?_, ?_⟩
  · rw [curveStepLine_v, readVRecord_map_num]
  · rw [surfStepLine_v, readVRecord_map_num]

/-- C5: a knot or index list split across physical lines with the
trailing backslash marker parses to exactly the same value sequence (and
leaves exactly the same unconsumed lines) as the unbroken list, both for
the raw token loop and through the `parm u`, `curv` and `surf` record
handlers of the two readers. -/
theorem C5_continuation (chunks : List (List ℚ)) (rest : List Line)
    (stc : CurveSt) (sts : SurfSt) (a b c d : ℚ) :
    parseVals (contSplit chunks).1 ((contSplit chunks).2 ++ rest) =
      parseVals (chunks.flatten.map Tok.num) rest ∧
    parseVals (chunks.flatten.map Tok.num) rest = .ok (chunks.flatten, rest) ∧
    curveScan stc ((Tok.str "parm" :: Tok.str "u" :: (contSplit chunks).1) ::
        ((contSplit chunks).2 ++ rest)) =
      curveScan stc ((Tok.str "parm" :: Tok.str "u" ::
        chunks.flatten.map Tok.num) :: rest) ∧
    curveScan stc ((Tok.str "curv" :: Tok.num a :: Tok.num b ::
        (contSplit chunks).1) :: ((contSplit chunks).2 ++ rest)) =
      curveScan stc ((Tok.str "curv" :: Tok.num a :: Tok.num b ::
        chunks.flatten.map Tok.num) :: rest) ∧
    surfScan sts ((Tok.str "surf" :: Tok.num a :: Tok.num b :: Tok.num c ::
        Tok.num d :: (contSplit chunks).1) :: ((contSplit chunks).2 ++ rest)) =
      surfScan sts ((Tok.str "surf" :: Tok.num a :: Tok.num b :: Tok.num c ::
        Tok.num d :: chunks.flatten.map Tok.num) :: rest) := by
  have h1 := parseVals_contSplit chunks rest
  have h2 := parseVals_map_num chunks.flatten rest
  refine ⟨h1.trans h2.symm, h2, ?_, ?_, ?_⟩
  · rw [curveScan_cons, curveScan_cons, curveStepLine_parm_u_gen,
      curveStepLine_parm_u_gen, h1, h2]
  · rw [curveScan_cons, curveScan_cons, curveStepLine_curv_gen,
      curveStepLine_curv_gen, h1, h2]
  · rw [surfScan_cons, surfScan_cons, surfStepLine_surf_gen,
      surfStepLine_surf_gen, h1, h2]

/-- C9: with an empty control-point grid (zero rows or zero columns),
`surfaceSaveOBJ` returns right after opening the output stream
(obj.h lines 383–385): no error is signalled (the function has no error
channel) and nothing is written, so the created/truncated file is empty. -/
theorem C9_empty_grid_save_noop (du dv : Nat) (ku kv : List ℚ)
    (g : array2 Pt) (w : array2 ℚ) (rational : Bool)
    (h : g.rows = 0 ∨ g.cols = 0) :
    internalSurfaceSaveOBJ du dv ku kv g w rational = [] := by
  unfold internalSurfaceSaveOBJ
  rw [if_pos h]

/-- Witness for C9 on a 0×5 grid. -/
theorem C9_empty_grid_save_noop_witness :
    (array2.mkFill 0 5 (⟨0, 0, 0⟩ : Pt)).rows = 0 ∧
    internalSurfaceSaveOBJ 1 1 [0] [0] (array2.mkFill 0 5 ⟨0, 0, 0⟩)
      (array2.mkFill 0 5 1) false = [] := by
  exact ⟨rfl, C9_empty_grid_save_noop 1 1 [0] [0] _ _ false (Or.inl rfl)⟩

/-- C8 counterexample: the builders compute the control-point count as
`num_knots - deg - 1` in wrapping 32-bit unsigned arithmetic (obj.h
lines 148 and 303–304, with `deg` an `unsigned int` and the result
stored in an `int`), so the exact invariant fails for large degrees: a
curve file with `deg 4294967295` and four knots reads back successfully
with four control points, and `4 = 4 + 4294967295 + 1` is false. -/
theorem C8_counterexample :
    internalCurveReadOBJ iniFF c8File =
      .ok { deg := 4294967295, knots := [0, 0, 1, 1]
          , ctrlPts := [⟨1, 0, 0⟩, ⟨2, 0, 0⟩, ⟨3, 0, 0⟩, ⟨4, 0, 0⟩]
          , weights := [1, 1, 1, 1], rational := false } ∧
    ¬ ((4 : ℕ) = 4 + 4294967295 + 1) := by
  constructor
  · simp [internalCurveReadOBJ, c8File, iniFF, initCurveSt, curveStepLine,
      readVRecord, setCoord, cppTruncToInt, cppReadUInt, wrap32, toSigned32,
      cppNumCp, requiredCurveCheck, curveBuild, Bind.bind, Except.bind,
      cppVecGet, cppVecGetN, List.range_succ]
  · decide

/-- C8 (amended): on every successful read the control-point count is
congruent to `len(knots) - degree - 1` modulo 2^32 (and the curve's
weight vector stays parallel to its control points); the exact textbook
invariant `len(knots) = n_control_points + degree + 1` holds whenever
the degree and the knot count are below 2^31, so that the C++
`unsigned`/`int` arithmetic deriving the count cannot wrap.  The
surface analogue holds per axis over the grid extents. -/
theorem C8_length_invariants (ini : CurveInit) (file : List Line)
    (out : CurveOut) (inis : SurfInit) (files : List Line) (outs : SurfOut)
    (hc : internalCurveReadOBJ ini file = .ok out)
    (hs : internalSurfaceReadOBJ inis files = .ok outs) :
    ((out.ctrlPts.length + out.deg + 1) % 4294967296 =
      out.knots.length % 4294967296 ∧
     out.weights.length = out.ctrlPts.length ∧
     (out.deg < 2147483648 → out.knots.length < 2147483648 →
       out.knots.length = out.ctrlPts.length + out.deg + 1)) ∧
    ((outs.ctrlPts.rows + outs.deg_u + 1) % 4294967296 =
      outs.knots_u.length % 4294967296 ∧
     (outs.deg_u < 2147483648 → outs.knots_u.length < 2147483648 →
       outs.knots_u.length = outs.ctrlPts.rows + outs.deg_u + 1)) ∧
    ((outs.ctrlPts.cols + outs.deg_v + 1) % 4294967296 =
      outs.knots_v.length % 4294967296 ∧
     (outs.deg_v < 2147483648 → outs.knots_v.length < 2147483648 →
       outs.knots_v.length = outs.ctrlPts.cols + outs.deg_v + 1)) := by
  refine ⟨?_, ?_⟩
  · unfold internalCurveReadOBJ at hc
    simp only [Bind.bind, Except.bind] at hc
    cases hscan : curveScan (initCurveSt ini) file with
    | error e =>
      rw [hscan] at hc
      exact Except.noConfusion hc
    | ok st =>
      rw [hscan] at hc
      dsimp only at hc
      cases hchk : requiredCurveCheck st.parsed with
      | error e =>
        rw [hchk] at hc
        exact Except.noConfusion hc
      | ok u =>
        rw [hchk] at hc
        dsimp only at hc
        unfold curveBuild at hc
        dsimp only at hc
        split at hc
        · exact Except.noConfusion hc
        · rename_i hcond
          injection hc with h1
          subst h1
          have hsp := cppNumCp_spec st.temp_knots.length st.deg (by omega)
          simp only [List.length_map, List.length_range]
          exact ⟨hsp.1, by trivial, fun h1 h2 => hsp.2 h1 h2⟩
  · unfold internalSurfaceReadOBJ at hs
    simp only [Bind.bind, Except.bind] at hs
    cases hscan : surfScan (initSurfSt inis) files with
    | error e =>
      rw [hscan] at hs
      exact Except.noConfusion hs
    | ok st =>
      rw [hscan] at hs
      dsimp only at hs
      cases hchk : requiredSurfCheck st.parsed with
      | error e =>
        rw [hchk] at hs
        exact Except.noConfusion hs
      | ok u =>
        rw [hchk] at hs
        dsimp only at hs
        obtain ⟨e1, e2, e3, e4, e5, e6, e7, e8, e9, e10, e11, e12, e13⟩ :=
          surfBuild_ok_elim st outs hs
        have hspu := cppNumCp_spec st.temp_uknots.length st.deg_u e6
        have hspv := cppNumCp_spec st.temp_vknots.length st.deg_v e7
        rw [e1, e2, e3, e4, e8, e9]
        exact ⟨⟨hspu.1, fun h1 h2 => hspu.2 h1 h2⟩,
               ⟨hspv.1, fun h1 h2 => hspv.2 h1 h2⟩⟩

/-- C2 (code bug): the required-record check reads the
default-initialized `ToParse` struct (obj.h line 57), whose members hold
indeterminate values — undefined behaviour.  With the flags modelled as
a parameter: when the indeterminate `deg` flag happens to be truthy, a
file with no `deg` record sails through the check and the reader returns
a curve built with the caller's stale degree value, instead of the
"missing deg" error the claim (and the code's own error messages)
promise; only the all-false initial value realizes the claimed
behaviour.  Both readers share the flaw. -/
theorem C2_uninitialized_flags :
    internalCurveReadOBJ ⟨0, false, ⟨true, false, false, false⟩⟩ c2File =
      .ok { deg := 0, knots := [0, 1], ctrlPts := [⟨0, 0, 0⟩]
          , weights := [1], rational := false } ∧
    internalCurveReadOBJ iniFF c2File = .error .missingDeg ∧
    (internalSurfaceReadOBJ ⟨0, 0, false, ⟨true, false, false, false⟩⟩
      s2File).isOk = true ∧
    internalSurfaceReadOBJ iniSFF s2File = .error .missingDeg := by
  refine ⟨?_, ?_, ?_, ?_⟩
  · simp [internalCurveReadOBJ, c2File, initCurveSt, curveStepLine,
      readVRecord, setCoord, cppTruncToInt, cppReadUInt, wrap32, toSigned32, cppNumCp, requiredCurveCheck,
      curveBuild, Bind.bind, Except.bind, cppVecGet, cppVecGetN,
      List.range_succ]
  · simp [internalCurveReadOBJ, c2File, iniFF, initCurveSt, curveStepLine,
      readVRecord, setCoord, cppTruncToInt, cppReadUInt, wrap32, toSigned32, cppNumCp, requiredCurveCheck,
      Bind.bind, Except.bind]
  · have hscan : surfScan (initSurfSt ⟨0, 0, false, ⟨true, false, false,
        false⟩⟩) s2File = .ok
        { ctrl_pts_buf := [⟨0, 0, 0⟩], weights_buf := [1], indices := [1]
        , temp_uknots := [0, 1], temp_vknots := [0, 1]
        , deg_u := 0, deg_v := 0, rational := false
        , parsed := ⟨true, true, true, true⟩ } := by
      simp [s2File, initSurfSt, surfStepLine, readVRecord, setCoord,
        cppTruncToInt, cppReadUInt, wrap32, toSigned32, cppNumCp]
    unfold internalSurfaceReadOBJ
    rw [hscan]
    rfl
  · simp [internalSurfaceReadOBJ, s2File, iniSFF, initSurfSt, surfStepLine,
      readVRecord, setCoord, cppTruncToInt, cppReadUInt, wrap32, toSigned32, cppNumCp, requiredSurfCheck,
      Bind.bind, Except.bind]

/-- C3 (code bug): the structure builder performs no bounds check on the
vertex-pool accesses — the `assert` at obj.h line 154 constrains only
the destination subscript, which is trivially in range after the
`resize`.  An out-of-range 1-based index (file A) and an index list
shorter than the derived control-point count (file B) are both silent
out-of-range reads (undefined behaviour, modelled as `default`): the
reader returns success with junk data instead of any fatal corruption
error. -/
theorem C3_no_bounds_check :
    curveScan (initCurveSt iniFF) c3FileA = .ok
      { ctrl_pts_buf := [⟨5, 6, 7⟩], weights_buf := [2], indices := [2]
      , temp_knots := [0, 1], deg := 0, rational := false
      , parsed := ⟨true, true, true, true⟩ } ∧
    ¬ curveAccessesInBounds
      { ctrl_pts_buf := [⟨5, 6, 7⟩], weights_buf := [2], indices := [2]
      , temp_knots := [0, 1], deg := 0, rational := false
      , parsed := ⟨true, true, true, true⟩ } ∧
    internalCurveReadOBJ iniFF c3FileA =
      .ok { deg := 0, knots := [0, 1], ctrlPts := [⟨0, 0, 0⟩]
          , weights := [0], rational := false } ∧
    curveScan (initCurveSt iniFF) c3FileB = .ok
      { ctrl_pts_buf := [⟨5, 6, 7⟩], weights_buf := [2], indices := [1]
      , temp_knots := [0, 0, 1], deg := 0, rational := false
      , parsed := ⟨true, true, true, true⟩ } ∧
    ¬ curveAccessesInBounds
      { ctrl_pts_buf := [⟨5, 6, 7⟩], weights_buf := [2], indices := [1]
      , temp_knots := [0, 0, 1], deg := 0, rational := false
      , parsed := ⟨true, true, true, true⟩ } ∧
    internalCurveReadOBJ iniFF c3FileB =
      .ok { deg := 0, knots := [0, 0, 1], ctrlPts := [⟨5, 6, 7⟩, ⟨0, 0, 0⟩]
          , weights := [2, 0], rational := false } := by
  refine ⟨?_, by decide, ?_, ?_, by decide, ?_⟩
  · simp [c3FileA, iniFF, initCurveSt, curveStepLine, readVRecord, setCoord,
      cppTruncToInt, cppReadUInt, wrap32, toSigned32, cppNumCp]
  · simp [internalCurveReadOBJ, c3FileA, iniFF, initCurveSt, curveStepLine,
      readVRecord, setCoord, cppTruncToInt, cppReadUInt, wrap32, toSigned32, cppNumCp, requiredCurveCheck,
      curveBuild, Bind.bind, Except.bind, cppVecGet, cppVecGetN,
      List.range_succ]
    exact ⟨rfl, rfl⟩
  · simp [c3FileB, iniFF, initCurveSt, curveStepLine, readVRecord, setCoord,
      cppTruncToInt, cppReadUInt, wrap32, toSigned32, cppNumCp]
  · simp [internalCurveReadOBJ, c3FileB, iniFF, initCurveSt, curveStepLine,
      readVRecord, setCoord, cppTruncToInt, cppReadUInt, wrap32, toSigned32, cppNumCp, requiredCurveCheck,
      curveBuild, Bind.bind, Except.bind, cppVecGet, cppVecGetN,
      List.range_succ]
    exact ⟨rfl, rfl⟩

/-- C6: the surface builder consumes the index list with the u index
varying fastest: in general `grid(i, j) = pool[indices[j*nU + i] - 1]`
(first conjunct, straight from the fill loops), and on the concrete
nU=2, nV=3 file with index list `1 2 3 4 5 6`, the grid holds
`(0,0)=vertex 1, (1,0)=vertex 2, (0,1)=vertex 3, (1,1)=vertex 4,
(0,2)=vertex 5, (1,2)=vertex 6` (1-based vertices). -/
theorem C6_grid_order (st : SurfSt) (out : SurfOut) (i j : Nat)
    (h : surfBuild st = .ok out) (hi : i < out.ctrlPts.rows)
    (hj : j < out.ctrlPts.cols) :
    out.ctrlPts.get i j =
      cppVecGet st.ctrl_pts_buf
        (cppVecGetN st.indices (j * out.ctrlPts.rows + i) - 1) ∧
    internalSurfaceReadOBJ iniSFF c6File = surfBuild c6St ∧
    (readCtrlGrid (surfBuild c6St)).rows = 2 ∧
    (readCtrlGrid (surfBuild c6St)).cols = 3 ∧
    (readCtrlGrid (surfBuild c6St)).get 0 0 = ⟨1, 0, 0⟩ ∧
    (readCtrlGrid (surfBuild c6St)).get 1 0 = ⟨2, 0, 0⟩ ∧
    (readCtrlGrid (surfBuild c6St)).get 0 1 = ⟨3, 0, 0⟩ ∧
    (readCtrlGrid (surfBuild c6St)).get 1 1 = ⟨4, 0, 0⟩ ∧
    (readCtrlGrid (surfBuild c6St)).get 0 2 = ⟨5, 0, 0⟩ ∧
    (readCtrlGrid (surfBuild c6St)).get 1 2 = ⟨6, 0, 0⟩ := by
  have hscan : surfScan (initSurfSt iniSFF) c6File = .ok c6St := by
    simp [c6File, iniSFF, initSurfSt, surfStepLine, readVRecord, setCoord,
      cppTruncToInt, cppReadUInt, wrap32, toSigned32, cppNumCp, c6St]
  refine ⟨(surfBuild_ok_elim st out h).2.2.2.2.2.2.2.2.2.2.2.1 i j hi hj,
    ?_, by decide, by decide, by decide, by decide, by decide, by decide,
    by decide, by decide⟩
  unfold internalSurfaceReadOBJ
  rw [hscan]
  rfl

/-- Witness for C6: the general grid formula applied at (i, j) = (1, 2)
of the concrete example state. -/
theorem C6_grid_order_witness :
    (readCtrlGrid (surfBuild c6St)).get 1 2 =
      cppVecGet c6St.ctrl_pts_buf
        (cppVecGetN c6St.indices
          (2 * (readCtrlGrid (surfBuild c6St)).rows + 1) - 1) := by
  have hout : surfBuild c6St = .ok (outOrDefault (surfBuild c6St)) := rfl
  have h := C6_grid_order c6St (outOrDefault (surfBuild c6St)) 1 2 hout
    (by decide) (by decide)
  exact h.1

/-- C1 counterexample: the round-trip claim quantifies over every
surface satisfying the length invariants, but for an empty-grid surface
(which satisfies them with `n = 0` per axis) `surfaceSaveOBJ` writes an
empty file (obj.h lines 383–385), and reading that file back fails with
the missing-cstype error rather than reproducing the surface. -/
theorem C1_counterexample :
    srfEmpty.knots_u.length =
      srfEmpty.control_points.rows + srfEmpty.degree_u + 1 ∧
    srfEmpty.knots_v.length =
      srfEmpty.control_points.cols + srfEmpty.degree_v + 1 ∧
    surfaceSaveOBJ_S srfEmpty = [] ∧
    surfaceReadOBJ_S iniSFF (surfaceSaveOBJ_S srfEmpty) =
      .error .missingCstype := by
  refine ⟨rfl, rfl, rfl, ?_⟩
  show surfaceReadOBJ_S iniSFF [] = .error .missingCstype
  simp [surfaceReadOBJ_S, internalSurfaceReadOBJ, initSurfSt, iniSFF,
    requiredSurfCheck, Bind.bind, Except.bind]

/-- C1 (amended): saving then re-reading reproduces the data exactly —
degree(s), knot vector(s) (on the printed values), control points, and
weights for the rational variants, with the non-rational read-back
carrying no weight data (its weight slot is the discarded all-ones
vector and the rational flag reads back false) — for every curve
satisfying the length invariants, and for every surface satisfying them
whose control-point grid is nonempty (at least one row and one column;
the empty grid is the C9 no-op boundary case, whose empty file cannot be
read back).  The quantification carries the representability bounds of
the C++ types the readers compute with: degrees below 2^32 (`deg` is
extracted into an `unsigned int`) and control-point counts below 2^31
(`num_knots - deg - 1` lands in an `int`). -/
theorem C1_roundtrip :
    (∀ (ini : CurveInit) (crv : Curve),
      crv.knots.length = crv.control_points.length + crv.degree + 1 →
      crv.degree < 4294967296 → crv.control_points.length < 2147483648 →
      curveReadOBJ_C ini (curveSaveOBJ_C crv) = .ok crv ∧
      internalCurveReadOBJ ini (curveSaveOBJ_C crv) =
        .ok { deg := crv.degree, knots := crv.knots
            , ctrlPts := crv.control_points
            , weights := List.replicate crv.control_points.length 1
            , rational := false }) ∧
    (∀ (ini : CurveInit) (crv : RationalCurve),
      crv.knots.length = crv.control_points.length + crv.degree + 1 →
      crv.weights.length = crv.control_points.length →
      crv.degree < 4294967296 → crv.control_points.length < 2147483648 →
      curveReadOBJ_RC ini (curveSaveOBJ_RC crv) = .ok crv) ∧
    (∀ (ini : SurfInit) (srf : Surface),
      srf.knots_u.length = srf.control_points.rows + srf.degree_u + 1 →
      srf.knots_v.length = srf.control_points.cols + srf.degree_v + 1 →
      1 ≤ srf.control_points.rows → 1 ≤ srf.control_points.cols →
      srf.degree_u < 4294967296 → srf.degree_v < 4294967296 →
      srf.control_points.rows < 2147483648 →
      srf.control_points.cols < 2147483648 →
      ∃ out, surfaceReadOBJ_S ini (surfaceSaveOBJ_S srf) = .ok out ∧
        out.degree_u = srf.degree_u ∧ out.degree_v = srf.degree_v ∧
        out.knots_u = srf.knots_u ∧ out.knots_v = srf.knots_v ∧
        out.control_points.ExtEq srf.control_points) ∧
    (∀ (ini : SurfInit) (srf : RationalSurface),
      srf.knots_u.length = srf.control_points.rows + srf.degree_u + 1 →
      srf.knots_v.length = srf.control_points.cols + srf.degree_v + 1 →
      srf.weights.rows = srf.control_points.rows →
      srf.weights.cols = srf.control_points.cols →
      1 ≤ srf.control_points.rows → 1 ≤ srf.control_points.cols →
      srf.degree_u < 4294967296 → srf.degree_v < 4294967296 →
      srf.control_points.rows < 2147483648 →
      srf.control_points.cols < 2147483648 →
      ∃ out, surfaceReadOBJ_RS ini (surfaceSaveOBJ_RS srf) = .ok out ∧
        out.degree_u = srf.degree_u ∧ out.degree_v = srf.degree_v ∧
        out.knots_u = srf.knots_u ∧ out.knots_v = srf.knots_v ∧
        out.control_points.ExtEq srf.control_points ∧
        out.weights.ExtEq srf.weights) := by
  refine ⟨?_, ?_, ?_, ?_⟩
  · intro ini crv hk hd hn
    have h := internalCurve_roundtrip ini crv.degree crv.knots
      crv.control_points (List.replicate crv.control_points.length 1) false
      hk (List.length_replicate _ _) hd hn
    constructor
    · show (do
        let out ← internalCurveReadOBJ ini (curveSaveOBJ_C crv)
        Except.ok ({ degree := out.deg, knots := out.knots
                   , control_points := out.ctrlPts } : Curve)) = .ok crv
      rw [show curveSaveOBJ_C crv = internalCurveSaveOBJ crv.degree crv.knots
        crv.control_points (List.replicate crv.control_points.length 1) false
        from rfl, h]
      rfl
    · exact h
  · intro ini crv hk hw hd hn
    have h := internalCurve_roundtrip ini crv.degree crv.knots
      crv.control_points crv.weights true hk hw hd hn
    show (do
      let out ← internalCurveReadOBJ ini (curveSaveOBJ_RC crv)
      Except.ok ({ degree := out.deg, knots := out.knots
                 , control_points := out.ctrlPts
                 , weights := out.weights } : RationalCurve)) = .ok crv
    rw [show curveSaveOBJ_RC crv = internalCurveSaveOBJ crv.degree crv.knots
      crv.control_points crv.weights true from rfl, h]
    rfl
  · intro ini srf hku hkv hr hc hdu hdv hr2 hc2
    obtain ⟨out, hread, e1, e2, e3, e4, e5, h6, h7, h8, h9, hgp, hgw⟩ :=
      internalSurf_roundtrip ini srf.degree_u srf.degree_v srf.knots_u
        srf.knots_v srf.control_points
        (array2.mkFill srf.control_points.rows srf.control_points.cols 1)
        false hku hkv hr hc hdu hdv hr2 hc2
    refine ⟨{ degree_u := out.deg_u, degree_v := out.deg_v
            , knots_u := out.knots_u, knots_v := out.knots_v
            , control_points := out.ctrlPts }, ?_, e1, e2, e3, e4,
            h6, h7, ?_⟩
    · show (do
        let o ← internalSurfaceReadOBJ ini (surfaceSaveOBJ_S srf)
        Except.ok ({ degree_u := o.deg_u, degree_v := o.deg_v
                   , knots_u := o.knots_u, knots_v := o.knots_v
                   , control_points := o.ctrlPts } : Surface)) = _
      rw [show surfaceSaveOBJ_S srf = internalSurfaceSaveOBJ srf.degree_u
        srf.degree_v srf.knots_u srf.knots_v srf.control_points
        (array2.mkFill srf.control_points.rows srf.control_points.cols 1)
        false from rfl, hread]
      rfl
    · intro i hi j hj
      have hi2 : i < out.ctrlPts.rows := hi
      have hj2 : j < out.ctrlPts.cols := hj
      rw [h6] at hi2
      rw [h7] at hj2
      exact hgp i hi2 j hj2
  · intro ini srf hku hkv hwr hwc hr hc hdu hdv hr2 hc2
    obtain ⟨out, hread, e1, e2, e3, e4, e5, h6, h7, h8, h9, hgp, hgw⟩ :=
      internalSurf_roundtrip ini srf.degree_u srf.degree_v srf.knots_u
        srf.knots_v srf.control_points srf.weights true hku hkv hr hc
        hdu hdv hr2 hc2
    refine ⟨{ degree_u := out.deg_u, degree_v := out.deg_v
            , knots_u := out.knots_u, knots_v := out.knots_v
            , control_points := out.ctrlPts, weights := out.weights },
            ?_, e1, e2, e3, e4, ⟨h6, h7, ?_⟩, ⟨h8.trans hwr.symm,
            h9.trans hwc.symm, ?_⟩⟩
    · show (do
        let o ← internalSurfaceReadOBJ ini (surfaceSaveOBJ_RS srf)
        Except.ok ({ degree_u := o.deg_u, degree_v := o.deg_v
                   , knots_u := o.knots_u, knots_v := o.knots_v
                   , control_points := o.ctrlPts
                   , weights := o.weights } : RationalSurface)) = _
      rw [show surfaceSaveOBJ_RS srf = internalSurfaceSaveOBJ srf.degree_u
        srf.degree_v srf.knots_u srf.knots_v srf.control_points srf.weights
        true from rfl, hread]
      rfl
    · intro i hi j hj
      have hi2 : i < out.ctrlPts.rows := hi
      have hj2 : j < out.ctrlPts.cols := hj
      rw [h6] at hi2
      rw [h7] at hj2
      exact hgp i hi2 j hj2
    · intro i hi j hj
      have hi2 : i < out.weights.rows := hi
      have hj2 : j < out.weights.cols := hj
      rw [h8] at hi2
      rw [h9] at hj2
      exact hgw i hi2 j hj2

/-- Witness for C1 on concrete curves and surfaces. -/
theorem C1_roundtrip_witness :
    curveReadOBJ_C iniFF
        (curveSaveOBJ_C ⟨1, [0, 0, 1, 1], [⟨1, 2, 3⟩, ⟨4, 5, 6⟩]⟩) =
      .ok ⟨1, [0, 0, 1, 1], [⟨1, 2, 3⟩, ⟨4, 5, 6⟩]⟩ ∧
    curveReadOBJ_RC iniFF
        (curveSaveOBJ_RC ⟨1, [0, 0, 1, 1], [⟨1, 2, 3⟩, ⟨4, 5, 6⟩], [1, 2]⟩) =
      .ok ⟨1, [0, 0, 1, 1], [⟨1, 2, 3⟩, ⟨4, 5, 6⟩], [1, 2]⟩ ∧
    (∃ out, surfaceReadOBJ_S iniSFF (surfaceSaveOBJ_S
        ⟨1, 1, [0, 0, 1, 1], [0, 0, 1, 1], array2.mkFill 2 2 ⟨1, 1, 1⟩⟩) =
        .ok out ∧
      out.control_points.ExtEq (array2.mkFill 2 2 ⟨1, 1, 1⟩)) ∧
    (∃ out, surfaceReadOBJ_RS iniSFF (surfaceSaveOBJ_RS
        ⟨1, 1, [0, 0, 1, 1], [0, 0, 1, 1], array2.mkFill 2 2 ⟨1, 1, 1⟩,
         array2.mkFill 2 2 2⟩) = .ok out ∧
      out.weights.ExtEq (array2.mkFill 2 2 2)) := by
  have h := C1_roundtrip
  refine ⟨(h.1 iniFF _ (by decide) (by decide) (by decide)).1,
    h.2.1 iniFF _ (by decide) (by decide) (by decide) (by decide), ?_, ?_⟩
  · obtain ⟨out, ho, _, _, _, _, he⟩ := h.2.2.1 iniSFF
      ⟨1, 1, [0, 0, 1, 1], [0, 0, 1, 1], array2.mkFill 2 2 ⟨1, 1, 1⟩⟩
      (by decide) (by decide) (by decide) (by decide)
      (by decide) (by decide) (by decide) (by decide)
    exact ⟨out, ho, he⟩
  · obtain ⟨out, ho, _, _, _, _, _, hw⟩ := h.2.2.2 iniSFF
      ⟨1, 1, [0, 0, 1, 1], [0, 0, 1, 1], array2.mkFill 2 2 ⟨1, 1, 1⟩,
       array2.mkFill 2 2 2⟩
      (by decide) (by decide) (by decide) (by decide) (by decide) (by decide)
      (by decide) (by decide) (by decide) (by decide)
    exact ⟨out, ho, hw⟩

/-- Witness for C8 on concrete saved files read back successfully. -/
theorem C8_length_invariants_witness :
    ∃ (out : CurveOut) (outs : SurfOut),
      internalCurveReadOBJ iniFF
        (internalCurveSaveOBJ 1 [0, 0, 1, 1] [⟨1, 2, 3⟩, ⟨4, 5, 6⟩] [1, 1]
          false) = .ok out ∧
      internalSurfaceReadOBJ iniSFF
        (internalSurfaceSaveOBJ 1 1 [0, 0, 1, 1] [0, 0, 1, 1]
          (array2.mkFill 2 2 ⟨1, 1, 1⟩) (array2.mkFill 2 2 1) false) =
        .ok outs ∧
      out.knots.length = out.ctrlPts.length + out.deg + 1 ∧
      outs.knots_u.length = outs.ctrlPts.rows + outs.deg_u + 1 ∧
      outs.knots_v.length = outs.ctrlPts.cols + outs.deg_v + 1 := by
  have hc := internalCurve_roundtrip iniFF 1 [0, 0, 1, 1]
    [⟨1, 2, 3⟩, ⟨4, 5, 6⟩] [1, 1] false (by decide) (by decide) (by decide)
    (by decide)
  obtain ⟨outs, hs, hrest⟩ := internalSurf_roundtrip iniSFF 1 1
    [0, 0, 1, 1] [0, 0, 1, 1] (array2.mkFill 2 2 ⟨1, 1, 1⟩)
    (array2.mkFill 2 2 1) false (by decide) (by decide) (by decide)
    (by decide) (by decide) (by decide) (by decide) (by decide)
  have h := C8_length_invariants iniFF _ _ iniSFF _ outs hc hs
  refine ⟨_, outs, hc, hs, h.1.2.2 (by decide) (by decide), ?_, ?_⟩
  · exact h.2.1.2 (by rw [hrest.1]; decide) (by rw [hrest.2.2.1]; decide)
  · exact h.2.2.2 (by rw [hrest.2.1]; decide)
      (by rw [hrest.2.2.2.1]; decide)

/-- Witness for C4 at a three-field `v` record. -/
theorem C4_v_record_defaults_witness :
    readVRecord [Tok.num 10, Tok.num 20, Tok.num 30] = (⟨10, 20, 30⟩, 1) := by
  have h := C4_v_record_defaults [10, 20, 30] (initCurveSt iniFF)
    (initSurfSt iniSFF) []
  exact h.1

/-- Witness for C5 on the list `1 2 3` split after its second value. -/
theorem C5_continuation_witness :
    parseVals [Tok.num 1, Tok.num 2, bsTok] [[Tok.num 3]] =
      .ok ([1, 2, 3], []) := by
  have h := C5_continuation [[1, 2], [3]] [] (initCurveSt iniFF)
    (initSurfSt iniSFF) 0 0 0 0
  exact h.1.trans h.2.1

/-- Witness for C7 (amended) on a one-blank-line file. -/
theorem C7_blank_line_behavior_witness :
    curveScan (initCurveSt iniFF) [[]] = curveScan (initCurveSt iniFF) [] ∧
    surfScan (initSurfSt iniSFF) [[]] = .ok (initSurfSt iniSFF) := by
  have h := C7_blank_line_behavior (initCurveSt iniFF) (initSurfSt iniSFF) []
  exact ⟨h.2.1, h.2.2.2⟩
